import Mathlib

/-!
Verification development for the auto-signal trading bot.

The TypeScript source is shallowly embedded: JS numbers are modelled as
rationals (ℚ), `Date.now()` is threaded as an explicit `now : ℤ` parameter,
string prices are modelled as already-parsed rationals, and functions that
throw are modelled with `Except`/`Option`.  Presentation-only string fields
(alert descriptions, entry reasons) are elided or kept as constants.
-/

namespace AutoSignal

/-- JS `Math.round`: round half toward positive infinity, i.e. `⌊x + 1/2⌋`. -/
def jsRound (q : ℚ) : ℤ := ⌊q + 1/2⌋

/-- Round to 2 decimal places, as `Math.round(x * 100) / 100`. -/
def round2 (q : ℚ) : ℚ := (jsRound (q * 100) : ℚ) / 100

/-- Round to 6 decimal places, as `Math.round(x * 1000000) / 1000000`. -/
def round6 (q : ℚ) : ℚ := (jsRound (q * 1000000) : ℚ) / 1000000

/-! ## Candle data (types/market.model.ts `KlineData`, numeric fields parsed) -/

structure Kline where
  openTime : ℤ
  openPrice : ℚ
  high : ℚ
  low : ℚ
  close : ℚ
  volume : ℚ
  closeTime : ℤ
  deriving Repr, DecidableEq

/-- market.model.ts `MarketData`. -/
structure MarketData where
  symbol : String
  currentPrice : ℚ
  timestamp : ℤ
  klineData : List Kline
  deriving Repr, DecidableEq

/-! ## Pivot detection (utils/pivot.utils.ts) -/

structure PivotPoint where
  value : ℚ
  index : ℕ
  timestamp : ℤ
  deriving Repr, DecidableEq

/-- The loop body of `detectPivotHighs` at index `i`: every value in the
`leftBars` positions before `i` and the `rightBars` positions after `i`
must be strictly below `data[i]` (the source disqualifies on `>=`). -/
def isPivotHigh (data : List ℚ) (leftBars rightBars i : ℕ) : Bool :=
  ((List.range' (i - leftBars) leftBars).all fun j =>
      decide (data.getD j 0 < data.getD i 0)) &&
  ((List.range' (i + 1) rightBars).all fun j =>
      decide (data.getD j 0 < data.getD i 0))

/-- The loop body of `detectPivotLows` at index `i` (disqualifies on `<=`). -/
def isPivotLow (data : List ℚ) (leftBars rightBars i : ℕ) : Bool :=
  ((List.range' (i - leftBars) leftBars).all fun j =>
      decide (data.getD i 0 < data.getD j 0)) &&
  ((List.range' (i + 1) rightBars).all fun j =>
      decide (data.getD i 0 < data.getD j 0))

/-- pivot.utils.ts `detectPivotHighs`: scan indices `leftBars ≤ i < n − rightBars`.
The source stamps `Date.now() - (n - i) * 60000`; `now` stands for `Date.now()`. -/
def detectPivotHighs (data : List ℚ) (leftBars rightBars : ℕ) (now : ℤ) :
    List PivotPoint :=
  (List.range' leftBars (data.length - rightBars - leftBars)).filterMap fun i =>
    if isPivotHigh data leftBars rightBars i then
      some ⟨data.getD i 0, i, now - (data.length - i : ℕ) * 60000⟩
    else none

/-- pivot.utils.ts `detectPivotLows`. -/
def detectPivotLows (data : List ℚ) (leftBars rightBars : ℕ) (now : ℤ) :
    List PivotPoint :=
  (List.range' leftBars (data.length - rightBars - leftBars)).filterMap fun i =>
    if isPivotLow data leftBars rightBars i then
      some ⟨data.getD i 0, i, now - (data.length - i : ℕ) * 60000⟩
    else none

/-- pivot.utils.ts `getRecentPivots` = `pivotPoints.slice(-count)` (callers use
`count = 2`). -/
def getRecentPivots (pivotPoints : List PivotPoint) (count : ℕ) : List PivotPoint :=
  pivotPoints.drop (pivotPoints.length - count)

/-- The last two elements of a list as `(previous, current)`, i.e. the source's
`arr[arr.length - 2]` and `arr[arr.length - 1]` on an already-sliced pair. -/
def last2 {α : Type} (xs : List α) : Option (α × α) :=
  match xs.drop (xs.length - 2) with
  | [a, b] => some (a, b)
  | _ => none

/-! ## RSI series (utils/divergence.utils.ts `calculateRSIValues`) -/

/-- Wilder smoothing update `avg = (avg * (period - 1) + latest) / period`. -/
def wilderStep (period : ℕ) (avg latest : ℚ) : ℚ :=
  (avg * ((period : ℚ) - 1) + latest) / (period : ℚ)

/-- divergence.utils.ts `calculateRSIValues`: the first `period` entries are the
neutral value 50; from index `period` on, the RSI from the running Wilder
averages is appended (rounded to 2 decimals) and then the averages are updated
with the gain/loss at that index when it exists. -/
def calculateRSIValues (prices : List ℚ) (period : ℕ) : List ℚ :=
  let priceChanges := List.zipWith (fun a b => a - b) (prices.drop 1) prices
  let gains := priceChanges.map fun c => if 0 < c then c else 0
  let losses := priceChanges.map fun c => if c < 0 then |c| else 0
  let avgGain0 := (gains.take period).sum / (period : ℚ)
  let avgLoss0 := (losses.take period).sum / (period : ℚ)
  let step := fun (st : ℚ × ℚ × List ℚ) (i : ℕ) =>
    let rs := if st.2.1 = 0 then (100 : ℚ) else st.1 / st.2.1
    let rsi := 100 - 100 / (1 + rs)
    let acc := st.2.2 ++ [round2 rsi]
    if i < gains.length then
      (wilderStep period st.1 (gains.getD i 0),
       wilderStep period st.2.1 (losses.getD i 0), acc)
    else (st.1, st.2.1, acc)
  let res := (List.range' period (prices.length - period)).foldl step
    (avgGain0, avgLoss0, [])
  List.replicate period 50 ++ res.2.2

/-! ## RSI divergence detection (utils/divergence.utils.ts) -/

structure DivergenceConfig where
  pivotLength : ℕ
  bullDivergenceDiff : ℚ
  bearDivergenceDiff : ℚ
  bullRsiLevel : ℚ
  bearRsiLevel : ℚ
  tpPercent : ℚ
  slPercent : ℚ
  deriving Repr, DecidableEq

inductive SigDirection where
  | BULLISH
  | BEARISH
  deriving Repr, DecidableEq

structure DivergenceSignal where
  type : SigDirection
  price : ℚ
  rsi : ℚ
  timestamp : ℤ
  takeProfit : ℚ
  stopLoss : ℚ
  confidence : ℚ
  deriving Repr, DecidableEq

/-- divergence.utils.ts `calculateTPSL`. -/
def calculateTPSL (price : ℚ) (isBullish : Bool) (tpPercent slPercent : ℚ) :
    ℚ × ℚ :=
  if isBullish then
    (price * (1 + tpPercent / 100), price * (1 - slPercent / 100))
  else
    (price * (1 - tpPercent / 100), price * (1 + slPercent / 100))

/-- The bullish block of divergence.utils.ts `detectRSIDivergence`, applied to
the already-sliced recent price/RSI pivot lows. -/
def rsiDivergenceBullCheck (recentPriceLows recentRsiLows : List PivotPoint)
    (config : DivergenceConfig) (now : ℤ) : Option DivergenceSignal :=
  match last2 recentPriceLows, last2 recentRsiLows with
  | some (prevPriceLow, currentPriceLow), some (prevRsiLow, currentRsiLow) =>
    if currentPriceLow.value < prevPriceLow.value ∧
        currentRsiLow.value > prevRsiLow.value + config.bullDivergenceDiff ∧
        currentRsiLow.value ≤ config.bullRsiLevel then
      let tpsl := calculateTPSL currentPriceLow.value true config.tpPercent config.slPercent
      some ⟨.BULLISH, currentPriceLow.value, currentRsiLow.value, now,
        tpsl.1, tpsl.2, min 100 ((currentRsiLow.value - prevRsiLow.value) * 10)⟩
    else none
  | _, _ => none

/-- The bearish block of divergence.utils.ts `detectRSIDivergence`, applied to
the already-sliced recent price/RSI pivot highs. -/
def rsiDivergenceBearCheck (recentPriceHighs recentRsiHighs : List PivotPoint)
    (config : DivergenceConfig) (now : ℤ) : Option DivergenceSignal :=
  match last2 recentPriceHighs, last2 recentRsiHighs with
  | some (prevPriceHigh, currentPriceHigh), some (prevRsiHigh, currentRsiHigh) =>
    if currentPriceHigh.value > prevPriceHigh.value ∧
        currentRsiHigh.value < prevRsiHigh.value - config.bearDivergenceDiff ∧
        currentRsiHigh.value ≥ config.bearRsiLevel then
      let tpsl := calculateTPSL currentPriceHigh.value false config.tpPercent config.slPercent
      some ⟨.BEARISH, currentPriceHigh.value, currentRsiHigh.value, now,
        tpsl.1, tpsl.2, min 100 ((prevRsiHigh.value - currentRsiHigh.value) * 10)⟩
    else none
  | _, _ => none

/-- divergence.utils.ts `detectRSIDivergence`.  The bullish check runs first;
if it does not return, the bearish check runs on the last two price/RSI pivot
highs.  `now` stands for `Date.now()`. -/
def detectRSIDivergence (klineData : List Kline) (config : DivergenceConfig)
    (now : ℤ) : Option DivergenceSignal :=
  if klineData.length < 30 then none
  else
    let closePrices := klineData.map (·.close)
    let rsiValues := calculateRSIValues closePrices 14
    let priceHighs := detectPivotHighs closePrices config.pivotLength config.pivotLength now
    let priceLows := detectPivotLows closePrices config.pivotLength config.pivotLength now
    let rsiHighs := detectPivotHighs rsiValues config.pivotLength config.pivotLength now
    let rsiLows := detectPivotLows rsiValues config.pivotLength config.pivotLength now
    match rsiDivergenceBullCheck (getRecentPivots priceLows 2)
        (getRecentPivots rsiLows 2) config now with
    | some s => some s
    | none => rsiDivergenceBearCheck (getRecentPivots priceHighs 2)
        (getRecentPivots rsiHighs 2) config now

/-! ## Single-value RSI (utils/rsi.utils.ts `calculateRSI`) -/

structure RSIData where
  rsi : ℚ
  timestamp : ℤ
  period : ℕ
  deriving Repr, DecidableEq

/-- The final smoothed `(avgGain, avgLoss)` pair of `calculateRSI`: simple mean
of the first `period` gains/losses, then Wilder smoothing over the rest. -/
def calculateRSIAverages (klineData : List Kline) (period : ℕ) : ℚ × ℚ :=
  let closePrices := klineData.map (·.close)
  let priceChanges := List.zipWith (fun a b => a - b) (closePrices.drop 1) closePrices
  let gains := priceChanges.map fun c => if 0 < c then c else 0
  let losses := priceChanges.map fun c => if c < 0 then |c| else 0
  let avgGain0 := (gains.take period).sum / (period : ℚ)
  let avgLoss0 := (losses.take period).sum / (period : ℚ)
  ((gains.drop period).zip (losses.drop period)).foldl
    (fun st gl => (wilderStep period st.1 gl.1, wilderStep period st.2 gl.2))
    (avgGain0, avgLoss0)

/-- The smoothed average loss over the window, i.e. the `avgLoss` the source
holds when it computes the final RS. -/
def smoothedAvgLoss (klineData : List Kline) (period : ℕ) : ℚ :=
  (calculateRSIAverages klineData period).2

/-- rsi.utils.ts `calculateRSI`: throws (here `.error`) when fewer than
`period + 1` candles are supplied; otherwise returns the rounded RSI from the
Wilder-smoothed averages, with RS capped at 100 when the average loss is 0. -/
def calculateRSI (klineData : List Kline) (period : ℕ) (now : ℤ) :
    Except String RSIData :=
  if klineData.length < period + 1 then
    .error "Insufficient data for RSI calculation"
  else
    let avgs := calculateRSIAverages klineData period
    let rs := if avgs.2 = 0 then (100 : ℚ) else avgs.1 / avgs.2
    let rsi := 100 - 100 / (1 + rs)
    .ok ⟨round2 rsi, now, period⟩

/-! ## Market structure (utils/market-structure.utils.ts) -/

inductive PointType where
  | HIGH
  | LOW
  deriving Repr, DecidableEq

structure MarketStructurePoint where
  price : ℚ
  index : ℕ
  timestamp : ℤ
  type : PointType
  deriving Repr, DecidableEq

inductive StructureBreakType where
  | BULLISH_BREAK
  | BEARISH_BREAK
  | BULLISH_CONTINUATION
  | BEARISH_CONTINUATION
  deriving Repr, DecidableEq

inductive StructureType where
  | HH
  | HL
  | LH
  | LL
  deriving Repr, DecidableEq

structure MarketStructureSignal where
  type : StructureBreakType
  price : ℚ
  structureType : StructureType
  timestamp : ℤ
  takeProfit : ℚ
  stopLoss : ℚ
  confidence : ℚ
  deriving Repr, DecidableEq

/-- market-structure.utils.ts `detectMarketStructurePoints`: pivot highs over
the candle highs and pivot lows over the candle lows, merged and sorted by
index.  The two pivot scans emit indices in increasing order, so the source's
sort by index is realised by a stable merge of the two ordered lists. -/
def detectMarketStructurePoints (klineData : List Kline) (pivotLength : ℕ)
    (now : ℤ) : List MarketStructurePoint :=
  let highPrices := klineData.map (·.high)
  let lowPrices := klineData.map (·.low)
  let pivotHighs := (detectPivotHighs highPrices pivotLength pivotLength now).map
    fun p => MarketStructurePoint.mk p.value p.index p.timestamp .HIGH
  let pivotLows := (detectPivotLows lowPrices pivotLength pivotLength now).map
    fun p => MarketStructurePoint.mk p.value p.index p.timestamp .LOW
  (pivotHighs ++ pivotLows).mergeSort fun a b => a.index ≤ b.index

/-- market-structure.utils.ts `calculateStructureConfidence`. -/
def calculateStructureConfidence (currentPrice previousPrice : ℚ)
    (structureType : StructureType) : ℚ :=
  let priceDiff := |currentPrice - previousPrice|
  let percentageDiff := priceDiff / previousPrice * 100
  let confidence := min 100 (percentageDiff * 20)
  let confidence := match structureType with
    | .HH | .LL => confidence * (12 / 10)
    | .HL | .LH => confidence * 1
  min 100 confidence

/-- The last four structure points as `(fourthLast, thirdLast, secondLast, last)`. -/
def last4 (xs : List MarketStructurePoint) :
    Option (MarketStructurePoint × MarketStructurePoint ×
            MarketStructurePoint × MarketStructurePoint) :=
  match xs.drop (xs.length - 4) with
  | [d, c, b, a] => some (d, c, b, a)
  | _ => none

/-- market-structure.utils.ts `analyzeMarketStructure`: classifies HH / HL /
LL / LH from the last four structure points.  Note the source checks the types
of only the latest three points; the fourth (oldest) point contributes only
its price to the HH / LL comparisons. -/
def analyzeMarketStructure (structurePoints : List MarketStructurePoint)
    (currentPrice : ℚ) (tpPercent slPercent : ℚ) (now : ℤ) :
    Option MarketStructureSignal :=
  if structurePoints.length < 4 then none
  else
    match last4 structurePoints with
    | none => none
    | some (fourthLastPoint, thirdLastPoint, secondLastPoint, lastPoint) =>
      if lastPoint.type = .HIGH ∧ secondLastPoint.type = .LOW ∧
          thirdLastPoint.type = .HIGH ∧
          lastPoint.price > thirdLastPoint.price ∧
          secondLastPoint.price > fourthLastPoint.price then
        let tpsl := calculateTPSL currentPrice true tpPercent slPercent
        some ⟨.BULLISH_BREAK, currentPrice, .HH, now, tpsl.1, tpsl.2,
          calculateStructureConfidence lastPoint.price thirdLastPoint.price .HH⟩
      else if lastPoint.type = .LOW ∧ secondLastPoint.type = .HIGH ∧
          thirdLastPoint.type = .LOW ∧
          lastPoint.price > thirdLastPoint.price then
        let tpsl := calculateTPSL currentPrice true tpPercent slPercent
        some ⟨.BULLISH_CONTINUATION, currentPrice, .HL, now, tpsl.1, tpsl.2,
          calculateStructureConfidence lastPoint.price thirdLastPoint.price .HL⟩
      else if lastPoint.type = .LOW ∧ secondLastPoint.type = .HIGH ∧
          thirdLastPoint.type = .LOW ∧
          lastPoint.price < thirdLastPoint.price ∧
          secondLastPoint.price < fourthLastPoint.price then
        let tpsl := calculateTPSL currentPrice false tpPercent slPercent
        some ⟨.BEARISH_BREAK, currentPrice, .LL, now, tpsl.1, tpsl.2,
          calculateStructureConfidence lastPoint.price thirdLastPoint.price .LL⟩
      else if lastPoint.type = .HIGH ∧ secondLastPoint.type = .LOW ∧
          thirdLastPoint.type = .HIGH ∧
          lastPoint.price < thirdLastPoint.price then
        let tpsl := calculateTPSL currentPrice false tpPercent slPercent
        some ⟨.BEARISH_CONTINUATION, currentPrice, .LH, now, tpsl.1, tpsl.2,
          calculateStructureConfidence lastPoint.price thirdLastPoint.price .LH⟩
      else none

inductive Trend where
  | BULLISH
  | BEARISH
  | SIDEWAYS
  deriving Repr, DecidableEq

/-- market-structure.utils.ts `getMarketTrend`. -/
def getMarketTrend (structurePoints : List MarketStructurePoint) : Trend :=
  if structurePoints.length < 4 then .SIDEWAYS
  else
    let recentPoints := structurePoints.drop (structurePoints.length - 4)
    let counts := (List.zip recentPoints (recentPoints.drop 1)).foldl
      (fun (st : ℕ × ℕ) pr =>
        let previous := pr.1
        let current := pr.2
        if current.type = .HIGH ∧ previous.type = .HIGH then
          if current.price > previous.price then (st.1 + 1, st.2) else (st.1, st.2 + 1)
        else if current.type = .LOW ∧ previous.type = .LOW then
          if current.price > previous.price then (st.1 + 1, st.2) else (st.1, st.2 + 1)
        else st)
      (0, 0)
    if counts.1 > counts.2 then .BULLISH
    else if counts.2 > counts.1 then .BEARISH
    else .SIDEWAYS

/-- market-structure.utils.ts `detectMarketStructureSignal`. -/
def detectMarketStructureSignal (klineData : List Kline) (currentPrice : ℚ)
    (pivotLength : ℕ) (tpPercent slPercent : ℚ) (now : ℤ) :
    Option MarketStructureSignal :=
  if klineData.length < 20 then none
  else
    let structurePoints := detectMarketStructurePoints klineData pivotLength now
    analyzeMarketStructure structurePoints currentPrice tpPercent slPercent now

/-! ## MACD (utils/macd.utils.ts)

The source builds sparse JS arrays whose holes are always read through
`|| 0`; the EMA array is modelled as a total function `ℕ → ℚ` that returns 0
below index `period − 1` (the hole region) and the recursive EMA value from
there on.  Reads the source performs never leave the region where the two
models agree. -/

structure MACDData where
  macd : ℚ
  signal : ℚ
  histogram : ℚ
  timestamp : ℤ
  deriving Repr, DecidableEq

structure MACDDivergenceSignal where
  type : SigDirection
  price : ℚ
  macd : ℚ
  timestamp : ℤ
  takeProfit : ℚ
  stopLoss : ℚ
  confidence : ℚ
  deriving Repr, DecidableEq

/-- macd.utils.ts `calculateEMA` as a function of the index: `ema[period-1]`
is the simple average of the first `period` inputs (missing entries read as 0),
later indices apply the multiplier `2/(period+1)`, and indices before
`period-1` are holes (read as 0 through `|| 0`). -/
def macdEMA (prices : List ℚ) (period : ℕ) : ℕ → ℚ
  | 0 => if period = 1 then (prices.take 1).sum else 0
  | i + 1 =>
    if i + 2 < period then 0
    else if i + 2 = period then (prices.take period).sum / (period : ℚ)
    else
      let multiplier := 2 / ((period : ℚ) + 1)
      prices.getD (i + 1) 0 * multiplier + macdEMA prices period i * (1 - multiplier)

/-- macd.utils.ts MACD line `fastEMA[i] - slowEMA[i]` (defined, and read,
from index `slowPeriod − 1`). -/
def macdLine (prices : List ℚ) (fastPeriod slowPeriod : ℕ) (i : ℕ) : ℚ :=
  macdEMA prices fastPeriod i - macdEMA prices slowPeriod i

/-- The dense array `macdLine.slice(slowPeriod - 1)` fed to the signal EMA. -/
def macdLineSliced (prices : List ℚ) (fastPeriod slowPeriod : ℕ) : List ℚ :=
  (List.range' (slowPeriod - 1) (prices.length - (slowPeriod - 1))).map
    (macdLine prices fastPeriod slowPeriod)

/-- macd.utils.ts `calculateMACDValues` (defaults fast 12, slow 26, signal 9):
one entry per index `i ∈ [slow + signal − 2, prices.length)`, values rounded
to 6 decimals, timestamps approximated from `now`. -/
def calculateMACDValues (prices : List ℚ) (fastPeriod slowPeriod signalPeriod : ℕ)
    (now : ℤ) : List MACDData :=
  let signalLine := macdEMA (macdLineSliced prices fastPeriod slowPeriod) signalPeriod
  let base := slowPeriod + signalPeriod - 2
  (List.range' base (prices.length - base)).map fun i =>
    let macd := macdLine prices fastPeriod slowPeriod i
    let signal := signalLine (i - base)
    ⟨round6 macd, round6 signal, round6 (macd - signal),
      now - (prices.length - i : ℕ) * 60000⟩

/-- macd.utils.ts `detectMACDDivergence`: same pivot comparison scheme as the
RSI detector but over the MACD values, without band levels. -/
def detectMACDDivergence (klineData : List Kline)
    (pivotLength : ℕ) (tpPercent slPercent : ℚ) (now : ℤ) :
    Option MACDDivergenceSignal :=
  if klineData.length < 50 then none
  else
    let closePrices := klineData.map (·.close)
    let macdValues := (calculateMACDValues closePrices 12 26 9 now).map (·.macd)
    let priceHighs := detectPivotHighs closePrices pivotLength pivotLength now
    let priceLows := detectPivotLows closePrices pivotLength pivotLength now
    let macdHighs := detectPivotHighs macdValues pivotLength pivotLength now
    let macdLows := detectPivotLows macdValues pivotLength pivotLength now
    let bull : Option MACDDivergenceSignal :=
      match last2 (getRecentPivots priceLows 2), last2 (getRecentPivots macdLows 2) with
      | some (prevPriceLow, currentPriceLow), some (prevMACDLow, currentMACDLow) =>
        if currentPriceLow.value < prevPriceLow.value ∧
            currentMACDLow.value > prevMACDLow.value then
          let tpsl := calculateTPSL currentPriceLow.value true tpPercent slPercent
          some ⟨.BULLISH, currentPriceLow.value, currentMACDLow.value, now,
            tpsl.1, tpsl.2, min 100 ((currentMACDLow.value - prevMACDLow.value) * 1000)⟩
        else none
      | _, _ => none
    match bull with
    | some s => some s
    | none =>
      match last2 (getRecentPivots priceHighs 2), last2 (getRecentPivots macdHighs 2) with
      | some (prevPriceHigh, currentPriceHigh), some (prevMACDHigh, currentMACDHigh) =>
        if currentPriceHigh.value > prevPriceHigh.value ∧
            currentMACDHigh.value < prevMACDHigh.value then
          let tpsl := calculateTPSL currentPriceHigh.value false tpPercent slPercent
          some ⟨.BEARISH, currentPriceHigh.value, currentMACDHigh.value, now,
            tpsl.1, tpsl.2, min 100 ((prevMACDHigh.value - currentMACDHigh.value) * 1000)⟩
        else none
      | _, _ => none

/-- macd.utils.ts `getCurrentMACD`. -/
def getCurrentMACD (klineData : List Kline) (now : ℤ) : Option MACDData :=
  if klineData.length < 26 then none
  else
    let closePrices := klineData.map (·.close)
    let macdData := calculateMACDValues closePrices 12 26 9 now
    macdData.getLast?

/-! ## Volume utilities (utils/volume.utils.ts) -/

structure VolumeData where
  currentVolume : ℚ
  averageVolume : ℚ
  volumeRatio : ℚ
  timestamp : ℤ
  deriving Repr, DecidableEq

inductive Severity where
  | LOW
  | MEDIUM
  | HIGH
  | EXTREME
  deriving Repr, DecidableEq

structure VolumeSpikeSignal where
  currentVolume : ℚ
  averageVolume : ℚ
  volumeRatio : ℚ
  price : ℚ
  timestamp : ℤ
  severity : Severity
  deriving Repr, DecidableEq

/-- volume.utils.ts `calculateVolumeData`: requires `period + 1` candles; the
average excludes the current (last) volume via `slice(-period - 1, -1)`. -/
def calculateVolumeData (klineData : List Kline) (period : ℕ) (now : ℤ) :
    Option VolumeData :=
  if klineData.length < period + 1 then none
  else
    let volumes := klineData.map (·.volume)
    let currentVolume := volumes.getLast?.getD 0
    let recentVolumes := (volumes.drop (volumes.length - (period + 1))).take period
    let averageVolume := recentVolumes.sum / (recentVolumes.length : ℚ)
    let volumeRatio := if averageVolume > 0 then currentVolume / averageVolume else 1
    some ⟨currentVolume, averageVolume, volumeRatio, now⟩

structure SpikeThresholds where
  low : ℚ
  medium : ℚ
  high : ℚ
  extreme : ℚ
  deriving Repr, DecidableEq

/-- volume.utils.ts `detectVolumeSpike`: grades the volume ratio against the
four thresholds (description strings elided). -/
def detectVolumeSpikeU (volumeData : VolumeData) (currentPrice : ℚ)
    (thresholds : SpikeThresholds) (now : ℤ) : Option VolumeSpikeSignal :=
  let severity : Option Severity :=
    if volumeData.volumeRatio ≥ thresholds.extreme then some .EXTREME
    else if volumeData.volumeRatio ≥ thresholds.high then some .HIGH
    else if volumeData.volumeRatio ≥ thresholds.medium then some .MEDIUM
    else if volumeData.volumeRatio ≥ thresholds.low then some .LOW
    else none
  severity.map fun s =>
    ⟨volumeData.currentVolume, volumeData.averageVolume, volumeData.volumeRatio,
      currentPrice, now, s⟩

inductive Direction where
  | INCREASING
  | DECREASING
  | STABLE
  deriving Repr, DecidableEq

/-- volume.utils.ts `calculateTrend`: majority of strict step directions. -/
def calculateTrend (values : List ℚ) : Direction :=
  if values.length < 2 then .STABLE
  else
    let counts := (List.zip values (values.drop 1)).foldl
      (fun (st : ℕ × ℕ) pr =>
        if pr.2 > pr.1 then (st.1 + 1, st.2)
        else if pr.2 < pr.1 then (st.1, st.2 + 1)
        else st)
      (0, 0)
    if counts.1 > counts.2 then .INCREASING
    else if counts.2 > counts.1 then .DECREASING
    else .STABLE

structure VolumeDivergenceSignal where
  priceDirection : Direction
  volumeDirection : Direction
  divergenceType : SigDirection
  price : ℚ
  volumeRatio : ℚ
  timestamp : ℤ
  confidence : ℚ
  reversalProbability : Severity
  takeProfit : ℚ
  stopLoss : ℚ
  deriving Repr, DecidableEq

/-- volume.utils.ts `calculateReversalProbability` (LOW / MEDIUM / HIGH). -/
def calculateReversalProbability (prices volumes : List ℚ) : Severity :=
  let p := prices.getLast?.getD 0
  let v := volumes.getLast?.getD 0
  let p0 := prices.headD 0
  let v0 := volumes.headD 0
  let priceChange := |p - p0| / p0
  let volumeChange := |v - v0| / v0
  let divergenceStrength := volumeChange / (priceChange + 1/1000)
  if divergenceStrength > 2 then .HIGH
  else if divergenceStrength > 3/2 then .MEDIUM
  else .LOW

/-- volume.utils.ts `calculateDivergenceConfidence`. -/
def calculateDivergenceConfidence (prices volumes : List ℚ)
    (divergenceType : SigDirection) : ℚ :=
  let p := prices.getLast?.getD 0
  let v := volumes.getLast?.getD 0
  let p0 := prices.headD 0
  let v0 := volumes.headD 0
  let priceChange := |p - p0| / p0
  let volumeChange := |v - v0| / v0
  let confidence := min 100 (volumeChange / (priceChange + 1/1000) * 30)
  let confidence := match divergenceType with
    | .BEARISH => confidence * (12 / 10)
    | .BULLISH => confidence * (11 / 10)
  min 100 confidence

/-- volume.utils.ts `detectVolumeDivergence`: trend-based divergence over the
last `lookbackPeriod + 1` candles (descriptions elided). -/
def detectVolumeDivergence (klineData : List Kline) (lookbackPeriod : ℕ)
    (now : ℤ) : Option VolumeDivergenceSignal :=
  if klineData.length < lookbackPeriod + 1 then none
  else
    let recentData := klineData.drop (klineData.length - (lookbackPeriod + 1))
    let prices := recentData.map (·.close)
    let volumes := recentData.map (·.volume)
    let priceTrend := calculateTrend prices
    let volumeTrend := calculateTrend volumes
    let divergenceType : Option SigDirection :=
      if priceTrend = .INCREASING ∧ volumeTrend = .DECREASING then
        some .BEARISH
      else if priceTrend = .DECREASING ∧ volumeTrend = .DECREASING then
        let p := prices.getLast?.getD 0
        let v := volumes.getLast?.getD 0
        let p0 := prices.headD 0
        let v0 := volumes.headD 0
        let priceChange := |p - p0| / p0
        let volumeChange := |v - v0| / v0
        if volumeChange > priceChange * (3/2) then some .BULLISH else none
      else none
    divergenceType.map fun dt =>
      let currentPrice := prices.getLast?.getD 0
      let currentVolume := volumes.getLast?.getD 0
      let averageVolume := volumes.sum / (volumes.length : ℚ)
      let volumeRatio := if averageVolume > 0 then currentVolume / averageVolume else 1
      let confidence := calculateDivergenceConfidence prices volumes dt
      let reversalProbability := calculateReversalProbability prices volumes
      let tpPercent : ℚ := 22/10
      let slPercent : ℚ := 11/10
      let takeProfit := if dt = .BULLISH then currentPrice * (1 + tpPercent / 100)
        else currentPrice * (1 - tpPercent / 100)
      let stopLoss := if dt = .BULLISH then currentPrice * (1 - slPercent / 100)
        else currentPrice * (1 + slPercent / 100)
      ⟨priceTrend, volumeTrend, dt, currentPrice, volumeRatio, now, confidence,
        reversalProbability, takeProfit, stopLoss⟩

/-! ## Detector services with cooldown state

Each service holds a `last…Signal` field and a `signalCooldown`; its check
returns `null` inside the cooldown window, otherwise runs the detector and
emits the result only when it is "new".  The mutable field is modelled as an
explicit state threaded through the call: the checks return
`(emitted alert, new state)`. -/

/-- services/signal.service.ts initial `signalCooldown` (5 minutes). -/
def SignalService.signalCooldown : ℤ := 5 * 60 * 1000

/-- services/macd-signal.service.ts initial `signalCooldown` (5 minutes). -/
def MACDSignalService.signalCooldown : ℤ := 5 * 60 * 1000

/-- services/market-structure.service.ts initial `signalCooldown` (10 minutes). -/
def MarketStructureService.signalCooldown : ℤ := 10 * 60 * 1000

/-- services/volume-divergence.service.ts initial `signalCooldown` (3 minutes). -/
def VolumeDivergenceService.signalCooldown : ℤ := 3 * 60 * 1000

/-- services/volume-alert.service.ts initial `signalCooldown` (2 minutes). -/
def VolumeAlertService.signalCooldown : ℤ := 2 * 60 * 1000

/-- The detection-and-filter stage of signal.service.ts
`checkForDivergenceSignal` (everything after the cooldown early return): run
the detector, then emit only a "new" signal (no stored signal, a different
type, or a price differing by more than 1%). -/
def SignalService.divergenceDetectAndFilter
    (lastDivergenceSignal : Option DivergenceSignal) (marketData : MarketData)
    (config : DivergenceConfig) (now : ℤ) :
    Option DivergenceSignal × Option DivergenceSignal :=
  match detectRSIDivergence marketData.klineData config now with
  | none => (none, lastDivergenceSignal)
  | some divergenceSignal =>
    let isNew := match lastDivergenceSignal with
      | none => true
      | some l =>
        decide (l.type ≠ divergenceSignal.type) ||
        decide (|l.price - divergenceSignal.price| > divergenceSignal.price * (1/100))
    if isNew then (some divergenceSignal, some divergenceSignal)
    else (none, lastDivergenceSignal)

/-- signal.service.ts `checkForDivergenceSignal`: cooldown gate on the stored
signal's timestamp (an early return), then detection and the "new signal"
filter. -/
def SignalService.checkForDivergenceSignal (cooldown : ℤ)
    (lastDivergenceSignal : Option DivergenceSignal) (marketData : MarketData)
    (config : DivergenceConfig) (now : ℤ) :
    Option DivergenceSignal × Option DivergenceSignal :=
  match lastDivergenceSignal with
  | some l =>
    if now - l.timestamp < cooldown then (none, lastDivergenceSignal)
    else SignalService.divergenceDetectAndFilter lastDivergenceSignal
      marketData config now
  | none => SignalService.divergenceDetectAndFilter lastDivergenceSignal
      marketData config now

/-- The detection-and-filter stage of macd-signal.service.ts
`checkForMACDDivergenceSignal`. -/
def MACDSignalService.macdDetectAndFilter
    (lastMACDSignal : Option MACDDivergenceSignal) (marketData : MarketData)
    (pivotLength : ℕ) (tpPercent slPercent : ℚ) (now : ℤ) :
    Option MACDDivergenceSignal × Option MACDDivergenceSignal :=
  match detectMACDDivergence marketData.klineData pivotLength tpPercent slPercent now with
  | none => (none, lastMACDSignal)
  | some divergenceSignal =>
    let isNew := match lastMACDSignal with
      | none => true
      | some l =>
        decide (l.type ≠ divergenceSignal.type) ||
        decide (|l.price - divergenceSignal.price| > divergenceSignal.price * (1/100))
    if isNew then (some divergenceSignal, some divergenceSignal)
    else (none, lastMACDSignal)

/-- macd-signal.service.ts `checkForMACDDivergenceSignal`. -/
def MACDSignalService.checkForMACDDivergenceSignal (cooldown : ℤ)
    (lastMACDSignal : Option MACDDivergenceSignal) (marketData : MarketData)
    (pivotLength : ℕ) (tpPercent slPercent : ℚ) (now : ℤ) :
    Option MACDDivergenceSignal × Option MACDDivergenceSignal :=
  match lastMACDSignal with
  | some l =>
    if now - l.timestamp < cooldown then (none, lastMACDSignal)
    else MACDSignalService.macdDetectAndFilter lastMACDSignal marketData
      pivotLength tpPercent slPercent now
  | none => MACDSignalService.macdDetectAndFilter lastMACDSignal marketData
      pivotLength tpPercent slPercent now

/-- The detection-and-filter stage of market-structure.service.ts
`checkForStructureSignal`: detection, then the "new signal" filter (different
break type or structure type, or price differing by more than 2%). -/
def MarketStructureService.structureDetectAndFilter
    (lastStructureSignal : Option MarketStructureSignal) (marketData : MarketData)
    (pivotLength : ℕ) (tpPercent slPercent : ℚ) (now : ℤ) :
    Option MarketStructureSignal × Option MarketStructureSignal :=
  match detectMarketStructureSignal marketData.klineData marketData.currentPrice
      pivotLength tpPercent slPercent now with
  | none => (none, lastStructureSignal)
  | some structureSignal =>
    let isNew := match lastStructureSignal with
      | none => true
      | some l =>
        decide (l.type ≠ structureSignal.type) ||
        decide (l.structureType ≠ structureSignal.structureType) ||
        decide (|l.price - structureSignal.price| > structureSignal.price * (2/100))
    if isNew then (some structureSignal, some structureSignal)
    else (none, lastStructureSignal)

/-- market-structure.service.ts `checkForStructureSignal`: cooldown early
return, then detection and the "new signal" filter. -/
def MarketStructureService.checkForStructureSignal (cooldown : ℤ)
    (lastStructureSignal : Option MarketStructureSignal) (marketData : MarketData)
    (pivotLength : ℕ) (tpPercent slPercent : ℚ) (now : ℤ) :
    Option MarketStructureSignal × Option MarketStructureSignal :=
  match lastStructureSignal with
  | some l =>
    if now - l.timestamp < cooldown then (none, lastStructureSignal)
    else MarketStructureService.structureDetectAndFilter lastStructureSignal
      marketData pivotLength tpPercent slPercent now
  | none => MarketStructureService.structureDetectAndFilter lastStructureSignal
      marketData pivotLength tpPercent slPercent now

/-- The detection-and-filter stage of volume-divergence.service.ts
`checkForVolumeDivergenceSignal`: detection, then the "new signal" filter
(different divergence type or confidence differing by more than 20). -/
def VolumeDivergenceService.volumeDivergenceDetectAndFilter
    (lastVolumeDivergenceSignal : Option VolumeDivergenceSignal)
    (marketData : MarketData) (lookbackPeriod : ℕ) (now : ℤ) :
    Option VolumeDivergenceSignal × Option VolumeDivergenceSignal :=
  match detectVolumeDivergence marketData.klineData lookbackPeriod now with
  | none => (none, lastVolumeDivergenceSignal)
  | some volumeDivergence =>
    let isNew := match lastVolumeDivergenceSignal with
      | none => true
      | some l =>
        decide (l.divergenceType ≠ volumeDivergence.divergenceType) ||
        decide (|l.confidence - volumeDivergence.confidence| > 20)
    if isNew then (some volumeDivergence, some volumeDivergence)
    else (none, lastVolumeDivergenceSignal)

/-- volume-divergence.service.ts `checkForVolumeDivergenceSignal`: cooldown
early return, then detection and the "new signal" filter. -/
def VolumeDivergenceService.checkForVolumeDivergenceSignal (cooldown : ℤ)
    (lastVolumeDivergenceSignal : Option VolumeDivergenceSignal)
    (marketData : MarketData) (lookbackPeriod : ℕ) (now : ℤ) :
    Option VolumeDivergenceSignal × Option VolumeDivergenceSignal :=
  match lastVolumeDivergenceSignal with
  | some l =>
    if now - l.timestamp < cooldown then (none, lastVolumeDivergenceSignal)
    else VolumeDivergenceService.volumeDivergenceDetectAndFilter
      lastVolumeDivergenceSignal marketData lookbackPeriod now
  | none => VolumeDivergenceService.volumeDivergenceDetectAndFilter
      lastVolumeDivergenceSignal marketData lookbackPeriod now

/-- The detection-and-filter stage of volume-alert.service.ts
`checkForVolumeSpike`. -/
def VolumeAlertService.volumeSpikeDetectAndFilter
    (lastVolumeSignal : Option VolumeSpikeSignal) (marketData : MarketData)
    (vd : VolumeData) (thresholds : SpikeThresholds) (now : ℤ) :
    Option VolumeSpikeSignal × Option VolumeSpikeSignal :=
  match detectVolumeSpikeU vd marketData.currentPrice thresholds now with
  | none => (none, lastVolumeSignal)
  | some volumeSpike =>
    let isNew := match lastVolumeSignal with
      | none => true
      | some l =>
        decide (l.severity ≠ volumeSpike.severity) ||
        decide (|l.volumeRatio - volumeSpike.volumeRatio| > 1/2)
    if isNew then (some volumeSpike, some volumeSpike)
    else (none, lastVolumeSignal)

/-- volume-alert.service.ts `checkForVolumeSpike`. -/
def VolumeAlertService.checkForVolumeSpike (cooldown : ℤ)
    (lastVolumeSignal : Option VolumeSpikeSignal) (marketData : MarketData)
    (volumeData : Option VolumeData) (thresholds : SpikeThresholds) (now : ℤ) :
    Option VolumeSpikeSignal × Option VolumeSpikeSignal :=
  match volumeData with
  | none => (none, lastVolumeSignal)
  | some vd =>
    match lastVolumeSignal with
    | some l =>
      if now - l.timestamp < cooldown then (none, lastVolumeSignal)
      else VolumeAlertService.volumeSpikeDetectAndFilter lastVolumeSignal
        marketData vd thresholds now
    | none => VolumeAlertService.volumeSpikeDetectAndFilter lastVolumeSignal
        marketData vd thresholds now

/-! ## The per-tick pipeline (src/index.ts `executeBotTask`)

`executeBotTask` evaluates the array passed to `Promise.all` left to right:
`generateTradingSignal`, `generateMACDSignal`, `generateStructureSignal`,
`generateVolumeAlert`, `getVolumeDivergenceSignal`.  Of these only
`generateTradingSignal` can throw (via `calculateRSI`); a synchronous throw
while building the array aborts the whole tick, so the sequencing is modelled
in the `Except` monad in source order. -/

structure TradingSignal where
  symbol : String
  currentPrice : ℚ
  rsi : ℚ
  divergenceSignal : Option DivergenceSignal
  timestamp : ℤ
  deriving Repr, DecidableEq

/-- signal.service.ts `generateTradingSignal`: `calculateRSI` (which throws on
short input), then the cooldown-gated divergence check. -/
def SignalService.generateTradingSignal (cooldown : ℤ)
    (lastDivergenceSignal : Option DivergenceSignal) (config : DivergenceConfig)
    (marketData : MarketData) (now : ℤ) :
    Except String (TradingSignal × Option DivergenceSignal) := do
  let rsiData ← calculateRSI marketData.klineData 14 now
  let checked := SignalService.checkForDivergenceSignal cooldown
    lastDivergenceSignal marketData config now
  .ok (⟨marketData.symbol, marketData.currentPrice, rsiData.rsi, checked.1, now⟩,
    checked.2)

/-- macd-signal.service.ts `generateMACDSignal` (never throws). -/
def MACDSignalService.generateMACDSignal (cooldown : ℤ)
    (lastMACDSignal : Option MACDDivergenceSignal) (marketData : MarketData)
    (pivotLength : ℕ) (tpPercent slPercent : ℚ) (now : ℤ) :
    (Option MACDData × Option MACDDivergenceSignal) × Option MACDDivergenceSignal :=
  let macd := getCurrentMACD marketData.klineData now
  let checked := MACDSignalService.checkForMACDDivergenceSignal cooldown
    lastMACDSignal marketData pivotLength tpPercent slPercent now
  ((macd, checked.1), checked.2)

/-- market-structure.service.ts `generateStructureSignal` (never throws). -/
def MarketStructureService.generateStructureSignal (cooldown : ℤ)
    (lastStructureSignal : Option MarketStructureSignal) (marketData : MarketData)
    (pivotLength : ℕ) (tpPercent slPercent : ℚ) (now : ℤ) :
    (List MarketStructurePoint × Trend × Option MarketStructureSignal) ×
      Option MarketStructureSignal :=
  let structurePoints := detectMarketStructurePoints marketData.klineData pivotLength now
  let trend := getMarketTrend structurePoints
  let checked := MarketStructureService.checkForStructureSignal cooldown
    lastStructureSignal marketData pivotLength tpPercent slPercent now
  ((structurePoints, trend, checked.1), checked.2)

/-- volume-alert.service.ts `generateVolumeAlert` (never throws). -/
def VolumeAlertService.generateVolumeAlert (cooldown : ℤ)
    (lastVolumeSignal : Option VolumeSpikeSignal) (marketData : MarketData)
    (volumePeriod : ℕ) (thresholds : SpikeThresholds) (now : ℤ) :
    Option VolumeSpikeSignal × Option VolumeSpikeSignal :=
  let volumeData := calculateVolumeData marketData.klineData volumePeriod now
  VolumeAlertService.checkForVolumeSpike cooldown lastVolumeSignal marketData
    volumeData thresholds now

/-- The mutable `last…Signal` fields of the five services used by
`executeBotTask`. -/
structure BotStates where
  lastDivergenceSignal : Option DivergenceSignal
  lastMACDSignal : Option MACDDivergenceSignal
  lastStructureSignal : Option MarketStructureSignal
  lastVolumeSignal : Option VolumeSpikeSignal
  lastVolumeDivergenceSignal : Option VolumeDivergenceSignal
  deriving Repr, DecidableEq

/-- The five detector outputs gathered by one tick of `executeBotTask`. -/
structure TickSignals where
  rsiSignal : TradingSignal
  macdSignal : Option MACDData × Option MACDDivergenceSignal
  structureSignal : List MarketStructurePoint × Trend × Option MarketStructureSignal
  volumeAlert : Option VolumeSpikeSignal
  volumeDivergence : Option VolumeDivergenceSignal
  deriving Repr, DecidableEq

/-- index.ts `executeBotTask`, signal-gathering step: the five generator calls
in source order; a throw from `generateTradingSignal` (the RSI calculator's
insufficient-data error) aborts the evaluation before any later generator
runs, and is caught only by the tick-level `try/catch`. -/
def executeBotTickSignals (states : BotStates) (config : DivergenceConfig)
    (volumePeriod : ℕ) (thresholds : SpikeThresholds) (lookbackPeriod : ℕ)
    (marketData : MarketData) (now : ℤ) :
    Except String (TickSignals × BotStates) := do
  let rsiOut ← SignalService.generateTradingSignal SignalService.signalCooldown
    states.lastDivergenceSignal config marketData now
  let macdOut := MACDSignalService.generateMACDSignal MACDSignalService.signalCooldown
    states.lastMACDSignal marketData config.pivotLength config.tpPercent
    config.slPercent now
  let structOut := MarketStructureService.generateStructureSignal
    MarketStructureService.signalCooldown states.lastStructureSignal marketData
    config.pivotLength config.tpPercent config.slPercent now
  let volOut := VolumeAlertService.generateVolumeAlert VolumeAlertService.signalCooldown
    states.lastVolumeSignal marketData volumePeriod thresholds now
  let volDivOut := VolumeDivergenceService.checkForVolumeDivergenceSignal
    VolumeDivergenceService.signalCooldown states.lastVolumeDivergenceSignal
    marketData lookbackPeriod now
  .ok (⟨rsiOut.1, macdOut.1, structOut.1, volOut.1, volDivOut.1⟩,
    ⟨rsiOut.2, macdOut.2, structOut.2, volOut.2, volDivOut.2⟩)

/-! ## Scalping service (ScalpingService)

The tracker map is modelled by the single `(symbol, timeframe)` entry under
consideration: `Option ℤ` is the stored `lastAlertTime` (`none` when no
tracker entry exists yet).  `Math.sqrt` inside the Bollinger computation is
not rational, so the Bollinger detector is parameterised by the square-root
interpretation `sqrtFn`. -/

structure ScalpingConfig where
  emaFastPeriod : ℕ
  emaSlowPeriod : ℕ
  stochasticKPeriod : ℕ
  stochasticDPeriod : ℕ
  stochasticOversold : ℚ
  stochasticOverbought : ℚ
  bollingerPeriod : ℕ
  bollingerStdDev : ℚ
  volumePeriod : ℕ
  volumeSpikeThreshold : ℚ
  minConfidence : ℚ
  alertCooldown : ℤ
  deriving Repr, DecidableEq

inductive ScalpingAlertType where
  | ema_crossover
  | stochastic_signal
  | bollinger_squeeze
  | volume_spike
  deriving Repr, DecidableEq

inductive TradeSide where
  | buy
  | sell
  deriving Repr, DecidableEq

structure ScalpingAlert where
  type : ScalpingAlertType
  symbol : String
  timeframe : String
  timestamp : ℤ
  currentPrice : ℚ
  signal : TradeSide
  confidence : ℚ
  deriving Repr, DecidableEq

/-- The emission block shared by the EMA, Stochastic and Bollinger scalping
detectors: package the chosen side and confidence into an alert, but only
when `confidence >= minConfidence`. -/
def ScalpingService.emitIfConfident (minConfidence : ℚ) (t : ScalpingAlertType)
    (symbol timeframe : String) (now : ℤ) (currentPrice : ℚ)
    (signalConf : Option (TradeSide × ℚ)) : Option ScalpingAlert :=
  match signalConf with
  | some (sig, confidence) =>
    if confidence ≥ minConfidence then
      some ⟨t, symbol, timeframe, now, currentPrice, sig, confidence⟩
    else none
  | none => none

/-- ScalpingService `calculateEMA`: empty when too short, otherwise the dense
EMA list starting with the SMA of the first `period` prices
(`ema.slice(period - 1)`). -/
def ScalpingService.calculateEMA (prices : List ℚ) (period : ℕ) : List ℚ :=
  if prices.length < period then []
  else
    let multiplier := 2 / ((period : ℚ) + 1)
    let first := (prices.take period).sum / (period : ℚ)
    ((prices.drop period).foldl
      (fun (st : ℚ × List ℚ) p =>
        let e := p * multiplier + st.1 * (1 - multiplier)
        (e, st.2 ++ [e]))
      (first, [first])).2

/-- ScalpingService `calculateStochastic` %K values: for each window of
`kPeriod` candles, `(close − lowestLow) / (highestHigh − lowestLow) × 100`,
or the neutral 50 when the range is zero.  As in the source, `highestHigh`
accumulates from 0 and `lowestLow` is the window minimum. -/
def ScalpingService.stochasticK (klineData : List Kline) (kPeriod : ℕ) : List ℚ :=
  if klineData.length < kPeriod then []
  else
    (List.range' (kPeriod - 1) (klineData.length - (kPeriod - 1))).map fun i =>
      let periodData := (klineData.take (i + 1)).drop (i + 1 - kPeriod)
      let currentClose := (periodData.getLast?.map (·.close)).getD 0
      let highestHigh := (periodData.map (·.high)).foldl max 0
      let lows := periodData.map (·.low)
      let lowestLow := match lows with
        | [] => (0 : ℚ)
        | h :: t => t.foldl min h
      if highestHigh = lowestLow then 50
      else (currentClose - lowestLow) / (highestHigh - lowestLow) * 100

/-- ScalpingService `calculateStochastic` %D values: SMA of %K over `dPeriod`. -/
def ScalpingService.stochasticD (kValues : List ℚ) (dPeriod : ℕ) : List ℚ :=
  (List.range' (dPeriod - 1) (kValues.length - (dPeriod - 1))).map fun i =>
    (((kValues.take (i + 1)).drop (i + 1 - dPeriod)).sum) / (dPeriod : ℚ)

/-- ScalpingService `calculateBollingerBands` upper/middle/lower triples;
`sqrtFn` interprets `Math.sqrt` on the population variance. -/
def ScalpingService.bollingerBands (sqrtFn : ℚ → ℚ) (prices : List ℚ)
    (period : ℕ) (stdDev : ℚ) : List (ℚ × ℚ × ℚ) :=
  if prices.length < period then []
  else
    (List.range' (period - 1) (prices.length - (period - 1))).map fun i =>
      let periodPrices := (prices.take (i + 1)).drop (i + 1 - period)
      let sma := periodPrices.sum / (period : ℚ)
      let variance := (periodPrices.map fun p => (p - sma) ^ 2).sum / (period : ℚ)
      let standardDeviation := sqrtFn variance
      (sma + stdDev * standardDeviation, sma, sma - stdDev * standardDeviation)

/-- ScalpingService `calculateAverageVolume`: mean of the last `period`
volumes (0 when fewer candles than `period`). -/
def ScalpingService.calculateAverageVolume (klineData : List Kline) (period : ℕ) : ℚ :=
  if klineData.length < period then 0
  else ((klineData.drop (klineData.length - period)).map (·.volume)).sum / (period : ℚ)

/-- ScalpingService `detectEMACrossover`: fires on a fast/slow EMA cross, with
confidence from the EMA gap, gated by `minConfidence`. -/
def ScalpingService.detectEMACrossover (config : ScalpingConfig) (symbol timeframe : String)
    (klineData : List Kline) (currentPrice : ℚ) (now : ℤ) : Option ScalpingAlert :=
  if klineData.length < config.emaSlowPeriod then none
  else
    let closes := klineData.map (·.close)
    let ema9 := ScalpingService.calculateEMA closes config.emaFastPeriod
    let ema21 := ScalpingService.calculateEMA closes config.emaSlowPeriod
    if ema9.length < 2 ∨ ema21.length < 2 then none
    else
      let currentEma9 := ema9.getLast?.getD 0
      let currentEma21 := ema21.getLast?.getD 0
      let previousEma9 := (ema9.drop (ema9.length - 2)).headD 0
      let previousEma21 := (ema21.drop (ema21.length - 2)).headD 0
      let signalConf : Option (TradeSide × ℚ) :=
        if previousEma9 ≤ previousEma21 ∧ currentEma9 > currentEma21 then
          some (.buy, min 90 (60 + (currentEma9 - currentEma21) / currentEma21 * 1000))
        else if previousEma9 ≥ previousEma21 ∧ currentEma9 < currentEma21 then
          some (.sell, min 90 (60 + (currentEma21 - currentEma9) / currentEma9 * 1000))
        else none
      ScalpingService.emitIfConfident config.minConfidence .ema_crossover
        symbol timeframe now currentPrice signalConf

/-- ScalpingService `detectStochasticSignal`: %K/%D cross near the extreme
zones, gated by `minConfidence`. -/
def ScalpingService.detectStochasticSignal (config : ScalpingConfig)
    (symbol timeframe : String) (klineData : List Kline) (currentPrice : ℚ)
    (now : ℤ) : Option ScalpingAlert :=
  if klineData.length < config.stochasticKPeriod then none
  else
    let k := ScalpingService.stochasticK klineData config.stochasticKPeriod
    let d := ScalpingService.stochasticD k config.stochasticDPeriod
    if k.length < 2 ∨ d.length < 2 then none
    else
      let currentK := k.getLast?.getD 0
      let currentD := d.getLast?.getD 0
      let previousK := (k.drop (k.length - 2)).headD 0
      let previousD := (d.drop (d.length - 2)).headD 0
      let signalConf : Option (TradeSide × ℚ) :=
        if previousK ≤ previousD ∧ currentK > currentD ∧
            currentK < config.stochasticOversold + 10 then
          some (.buy, min 85 (50 + (config.stochasticOversold - currentK) * (1/2)))
        else if previousK ≥ previousD ∧ currentK < currentD ∧
            currentK > config.stochasticOverbought - 10 then
          some (.sell, min 85 (50 + (currentK - config.stochasticOverbought) * (1/2)))
        else none
      ScalpingService.emitIfConfident config.minConfidence .stochastic_signal
        symbol timeframe now currentPrice signalConf

/-- ScalpingService `detectBollingerSignal`: band touch (confidence 75) or
breakout (confidence 80), gated by `minConfidence`. -/
def ScalpingService.detectBollingerSignal (sqrtFn : ℚ → ℚ) (config : ScalpingConfig)
    (symbol timeframe : String) (klineData : List Kline) (currentPrice : ℚ)
    (now : ℤ) : Option ScalpingAlert :=
  if klineData.length < config.bollingerPeriod then none
  else
    let closes := klineData.map (·.close)
    let bands := ScalpingService.bollingerBands sqrtFn closes
      config.bollingerPeriod config.bollingerStdDev
    if bands.length < 1 then none
    else
      let last := bands.getLast?.getD (0, 0, 0)
      let currentUpper := last.1
      let currentLower := last.2.2
      let signalConf : Option (TradeSide × ℚ) :=
        if currentPrice ≤ currentLower * (1 + 1/1000) then some (.buy, 75)
        else if currentPrice ≥ currentUpper * (1 - 1/1000) then some (.sell, 75)
        else if currentPrice > currentUpper then some (.buy, 80)
        else if currentPrice < currentLower then some (.sell, 80)
        else none
      ScalpingService.emitIfConfident config.minConfidence .bollinger_squeeze
        symbol timeframe now currentPrice signalConf

/-- ScalpingService `detectVolumeSpike`: the current volume against the
trailing average (excluding the current candle).  Unlike the other three
sub-detectors, the returned alert is NOT gated by `minConfidence`. -/
def ScalpingService.detectVolumeSpike (config : ScalpingConfig)
    (symbol timeframe : String) (klineData : List Kline) (currentPrice : ℚ)
    (now : ℤ) : Option ScalpingAlert :=
  if klineData.length < 2 then none
  else
    match klineData.getLast? with
    | none => none
    | some latestCandle =>
      let currentVolume := latestCandle.volume
      let averageVolume := ScalpingService.calculateAverageVolume
        (klineData.take (klineData.length - 1)) config.volumePeriod
      if averageVolume = 0 then none
      else
        let spikeRatio := currentVolume / averageVolume
        if spikeRatio ≥ config.volumeSpikeThreshold then
          some ⟨.volume_spike, symbol, timeframe, now, currentPrice, .buy,
            min 90 (60 + (spikeRatio - 1) * 10)⟩
        else none

/-- ScalpingService `shouldSendAlert`: true when no tracker entry exists, or
when the cooldown has elapsed since `lastAlertTime`. -/
def ScalpingService.shouldSendAlert (config : ScalpingConfig)
    (trackerLastAlertTime : Option ℤ) (now : ℤ) : Bool :=
  match trackerLastAlertTime with
  | none => true
  | some lastAlertTime => decide (now - lastAlertTime ≥ config.alertCooldown)

/-- ScalpingService `processMarketData`: cooldown gate, then the four
sub-detectors in source order; each emitted alert updates `lastAlertTime`.
Returns the alerts and the new tracker entry. -/
def ScalpingService.processMarketData (sqrtFn : ℚ → ℚ) (config : ScalpingConfig)
    (trackerLastAlertTime : Option ℤ) (symbol timeframe : String)
    (klineData : List Kline) (currentPrice : ℚ) (now : ℤ) :
    List ScalpingAlert × Option ℤ :=
  if ¬ ScalpingService.shouldSendAlert config trackerLastAlertTime now then
    ([], trackerLastAlertTime)
  else
    let emaAlert := ScalpingService.detectEMACrossover config symbol timeframe
      klineData currentPrice now
    let stochasticAlert := ScalpingService.detectStochasticSignal config symbol
      timeframe klineData currentPrice now
    let bollingerAlert := ScalpingService.detectBollingerSignal sqrtFn config
      symbol timeframe klineData currentPrice now
    let volumeAlert := ScalpingService.detectVolumeSpike config symbol timeframe
      klineData currentPrice now
    let alerts := [emaAlert, stochasticAlert, bollingerAlert, volumeAlert].filterMap id
    let tracker := if alerts.isEmpty then trackerLastAlertTime else some now
    (alerts, tracker)

/-! ## Signal tracker (SignalTrackerService)

`SignalRecord` mirrors types/market.model.ts; the formatted `entryReason`
string is kept as a constant tag, and only the metadata fields relevant to the
recorders below are kept. -/

inductive SignalStatus where
  | ACTIVE
  | TP_HIT
  | SL_HIT
  | EXPIRED
  deriving Repr, DecidableEq

inductive SignalType where
  | RSI_DIVERGENCE
  | MACD_DIVERGENCE
  | MARKET_STRUCTURE
  | VOLUME_SPIKE
  | VOLUME_DIVERGENCE
  deriving Repr, DecidableEq

structure SignalRecord where
  id : String
  symbol : String
  signalType : SignalType
  signalSubType : String
  entryPrice : ℚ
  takeProfit : ℚ
  stopLoss : ℚ
  entryTime : ℤ
  entryReason : String
  confidence : ℚ
  status : SignalStatus
  exitPrice : Option ℚ
  exitTime : Option ℤ
  pnl : Option ℚ
  pnlPercent : Option ℚ
  duration : Option ℤ
  riskRewardRatio : ℚ
  metadataRsi : Option ℚ
  metadataDivergenceType : Option String
  deriving Repr, DecidableEq

/-- The string form the source stores in `signalSubType` for a divergence. -/
def sigDirectionStr : SigDirection → String
  | .BULLISH => "BULLISH"
  | .BEARISH => "BEARISH"

/-- SignalTrackerService `recordRSIDivergence`: builds an ACTIVE record whose
entry price is the live `currentPrice` while TP/SL come from the signal, and
whose risk/reward ratio is `|TP − entry| / |entry − SL|`. -/
def recordRSIDivergence (symbol : String) (signal : DivergenceSignal)
    (currentPrice : ℚ) (now : ℤ) (signalId : String) : SignalRecord :=
  { id := signalId
    symbol := symbol
    signalType := .RSI_DIVERGENCE
    signalSubType := sigDirectionStr signal.type
    entryPrice := currentPrice
    takeProfit := signal.takeProfit
    stopLoss := signal.stopLoss
    entryTime := now
    entryReason := "RSI Divergence"
    confidence := signal.confidence
    status := .ACTIVE
    exitPrice := none
    exitTime := none
    pnl := none
    pnlPercent := none
    duration := none
    riskRewardRatio :=
      |signal.takeProfit - currentPrice| / |currentPrice - signal.stopLoss|
    metadataRsi := some signal.rsi
    metadataDivergenceType := some (sigDirectionStr signal.type) }

/-- The bullishness test of `updateSignalStatus`:
`signalSubType ∈ {BULLISH, HH, HL}`. -/
def isBullishRecord (signal : SignalRecord) : Bool :=
  decide (signal.signalSubType = "BULLISH") ||
  decide (signal.signalSubType = "HH") ||
  decide (signal.signalSubType = "HL")

/-- SignalTrackerService `updateSignalStatus`, the per-record body of the
loop: non-ACTIVE records are skipped (`continue`); ACTIVE records expire when
`now − entryTime > expiryTime` (pnl = currentPrice − entryPrice, for every
sub-type), otherwise bullish records exit at TP/SL with
pnl = exit − entryPrice and bearish records with pnl = entryPrice − exit. -/
def updateOneSignal (expiryTime : ℤ) (currentPrice : ℚ) (now : ℤ)
    (signal : SignalRecord) : SignalRecord :=
  if signal.status ≠ .ACTIVE then signal
  else if now - signal.entryTime > expiryTime then
    { signal with
      status := .EXPIRED
      exitPrice := some currentPrice
      exitTime := some now
      duration := some (jsRound (((now - signal.entryTime : ℤ) : ℚ) / (1000 * 60)))
      pnl := some (currentPrice - signal.entryPrice)
      pnlPercent := some ((currentPrice - signal.entryPrice) / signal.entryPrice * 100) }
  else if isBullishRecord signal then
    if currentPrice ≥ signal.takeProfit then
      { signal with
        status := .TP_HIT
        exitPrice := some signal.takeProfit
        exitTime := some now
        duration := some (jsRound (((now - signal.entryTime : ℤ) : ℚ) / (1000 * 60)))
        pnl := some (signal.takeProfit - signal.entryPrice)
        pnlPercent := some ((signal.takeProfit - signal.entryPrice) / signal.entryPrice * 100) }
    else if currentPrice ≤ signal.stopLoss then
      { signal with
        status := .SL_HIT
        exitPrice := some signal.stopLoss
        exitTime := some now
        duration := some (jsRound (((now - signal.entryTime : ℤ) : ℚ) / (1000 * 60)))
        pnl := some (signal.stopLoss - signal.entryPrice)
        pnlPercent := some ((signal.stopLoss - signal.entryPrice) / signal.entryPrice * 100) }
    else signal
  else
    if currentPrice ≤ signal.takeProfit then
      { signal with
        status := .TP_HIT
        exitPrice := some signal.takeProfit
        exitTime := some now
        duration := some (jsRound (((now - signal.entryTime : ℤ) : ℚ) / (1000 * 60)))
        pnl := some (signal.entryPrice - signal.takeProfit)
        pnlPercent := some ((signal.entryPrice - signal.takeProfit) / signal.entryPrice * 100) }
    else if currentPrice ≥ signal.stopLoss then
      { signal with
        status := .SL_HIT
        exitPrice := some signal.stopLoss
        exitTime := some now
        duration := some (jsRound (((now - signal.entryTime : ℤ) : ℚ) / (1000 * 60)))
        pnl := some (signal.entryPrice - signal.stopLoss)
        pnlPercent := some ((signal.entryPrice - signal.stopLoss) / signal.entryPrice * 100) }
    else signal

/-- SignalTrackerService `updateSignalStatus` over the whole registry, with
`expiryTime = signalExpiryHours * 60 * 60 * 1000`. -/
def updateSignalStatus (signalExpiryHours : ℤ) (signals : List SignalRecord)
    (currentPrice : ℚ) (now : ℤ) : List SignalRecord :=
  signals.map (updateOneSignal (signalExpiryHours * 60 * 60 * 1000) currentPrice now)

/-! # Theorems -/

/-- C2: A `SignalRecord` in a terminal state (anything other than ACTIVE) is a
fixed point of `updateSignalStatus`: subsequent calls, with any price and at
any later time, leave every field of the record unchanged, both for the
per-record step and for the registry-level update; moreover a call that leaves
a record ACTIVE changes nothing, so a record transitions at most once from
ACTIVE to a terminal state. -/
theorem updateSignalStatus_terminal_frozen (signal : SignalRecord)
    (h : signal.status ≠ .ACTIVE) :
    (∀ expiryTime currentPrice now,
        updateOneSignal expiryTime currentPrice now signal = signal) ∧
    (∀ hrs signals currentPrice now, signal ∈ signals →
        signal ∈ updateSignalStatus hrs signals currentPrice now) ∧
    (∀ (expiryTime : ℤ) (currentPrice : ℚ) (now : ℤ) (r : SignalRecord),
        (updateOneSignal expiryTime currentPrice now r).status = .ACTIVE →
        updateOneSignal expiryTime currentPrice now r = r) := by
  have h1 : ∀ e p t, updateOneSignal e p t signal = signal := by
    intro e p t
    unfold updateOneSignal
    rw [if_pos h]
  refine ⟨h1, ?_, ?_⟩
  · intro hrs signals p t hmem
    unfold updateSignalStatus
    exact List.mem_map.2 ⟨signal, hmem, h1 _ _ _⟩
  · intro e p t r h2
    unfold updateOneSignal at h2 ⊢
    split_ifs at h2 ⊢ <;> rfl

/-- A concrete terminal (TP_HIT) record, used by the C2 witness. -/
def wRecordTP : SignalRecord :=
  { id := "SIG_1", symbol := "BTCUSDT", signalType := .RSI_DIVERGENCE
    signalSubType := "BULLISH", entryPrice := 100, takeProfit := 101
    stopLoss := 99, entryTime := 0, entryReason := "RSI Divergence"
    confidence := 80, status := .TP_HIT, exitPrice := some 101
    exitTime := some 60000, pnl := some 1, pnlPercent := some 1
    duration := some 1, riskRewardRatio := 1
    metadataRsi := some 30, metadataDivergenceType := some "BULLISH" }

/-- C2 witness: a concrete TP_HIT record is unchanged by a later update. -/
theorem updateSignalStatus_terminal_frozen_witness :
    updateOneSignal 86400000 55 120000 wRecordTP = wRecordTP :=
  (updateSignalStatus_terminal_frozen wRecordTP (by decide)).1 86400000 55 120000

/-- C10: When an ACTIVE record expires, `updateSignalStatus` sets
`pnl = currentPrice − entryPrice` for every sub-type (the long-position sign
convention), whereas a bearish (non-bullish sub-type) record exiting at TP or
SL gets `pnl = entryPrice − exitPrice`. -/
theorem updateSignalStatus_expired_pnl_sign (expiryTime : ℤ) (currentPrice : ℚ)
    (now : ℤ) (signal : SignalRecord) (hA : signal.status = .ACTIVE)
    (hExp : now - signal.entryTime > expiryTime) :
    (updateOneSignal expiryTime currentPrice now signal).status = .EXPIRED ∧
    (updateOneSignal expiryTime currentPrice now signal).pnl =
      some (currentPrice - signal.entryPrice) ∧
    (∀ r : SignalRecord, r.status = .ACTIVE → isBullishRecord r = false →
        ¬(now - r.entryTime > expiryTime) → currentPrice ≤ r.takeProfit →
        (updateOneSignal expiryTime currentPrice now r).pnl =
          some (r.entryPrice - r.takeProfit) ∧
        (updateOneSignal expiryTime currentPrice now r).exitPrice =
          some r.takeProfit) ∧
    (∀ r : SignalRecord, r.status = .ACTIVE → isBullishRecord r = false →
        ¬(now - r.entryTime > expiryTime) → ¬(currentPrice ≤ r.takeProfit) →
        currentPrice ≥ r.stopLoss →
        (updateOneSignal expiryTime currentPrice now r).pnl =
          some (r.entryPrice - r.stopLoss) ∧
        (updateOneSignal expiryTime currentPrice now r).exitPrice =
          some r.stopLoss) := by
  have hne : ¬(signal.status ≠ SignalStatus.ACTIVE) := by simp [hA]
  refine ⟨?_, ?_, ?_, ?_⟩
  · unfold updateOneSignal
    rw [if_neg hne, if_pos hExp]
  · unfold updateOneSignal
    rw [if_neg hne, if_pos hExp]
  · intro r hrA hrBull hrExp hrTP
    have hrne : ¬(r.status ≠ SignalStatus.ACTIVE) := by simp [hrA]
    unfold updateOneSignal
    rw [if_neg hrne, if_neg hrExp, if_neg (by simp [hrBull]), if_pos hrTP]
    exact ⟨rfl, rfl⟩
  · intro r hrA hrBull hrExp hrTP hrSL
    have hrne : ¬(r.status ≠ SignalStatus.ACTIVE) := by simp [hrA]
    unfold updateOneSignal
    rw [if_neg hrne, if_neg hrExp, if_neg (by simp [hrBull]), if_neg hrTP,
      if_pos hrSL]
    exact ⟨rfl, rfl⟩

/-- A concrete ACTIVE bearish record entered at time 0 (C10 witness data). -/
def wRecordBearExpired : SignalRecord :=
  { id := "SIG_2", symbol := "BTCUSDT", signalType := .RSI_DIVERGENCE
    signalSubType := "BEARISH", entryPrice := 100, takeProfit := 99
    stopLoss := 101, entryTime := 0, entryReason := "RSI Divergence"
    confidence := 80, status := .ACTIVE, exitPrice := none
    exitTime := none, pnl := none, pnlPercent := none, duration := none
    riskRewardRatio := 1, metadataRsi := some 70
    metadataDivergenceType := some "BEARISH" }

/-- The same bearish record entered just before the tick (C10 witness data). -/
def wRecordBearLive : SignalRecord :=
  { wRecordBearExpired with entryTime := 86400000 }

/-- C10 witness: the concrete expired BEARISH record receives
`pnl = currentPrice − entryPrice` (here 110 − 100 = 10, the long-position sign
although the short position lost), while the live BEARISH record exiting at
TP = 99 receives `pnl = entryPrice − takeProfit` = 1. -/
theorem updateSignalStatus_expired_pnl_sign_witness :
    (updateOneSignal 86400000 110 86400001 wRecordBearExpired).pnl = some 10 ∧
    (updateOneSignal 86400000 98 86400001 wRecordBearLive).pnl = some 1 := by
  constructor
  · have h := (updateSignalStatus_expired_pnl_sign 86400000 110 86400001
      wRecordBearExpired (by decide) (by decide)).2.1
    rw [h]; norm_num [wRecordBearExpired]
  · have h := (updateSignalStatus_expired_pnl_sign 86400000 98 86400001
      wRecordBearExpired (by decide) (by decide)).2.2.1 wRecordBearLive
      (by decide) (by decide) (by decide) (by decide)
    rw [h.1]; norm_num [wRecordBearLive, wRecordBearExpired]

/-- C8 (amended): every record produced by `recordRSIDivergence` has
`riskRewardRatio = |takeProfit − entryPrice| / |entryPrice − stopLoss|`, and
`calculateTPSL` orders its levels around its own price argument — for a
bullish signal `takeProfit > price > stopLoss` and for a bearish signal
`takeProfit < price < stopLoss` (for positive price and positive
percentages).  The ordering is relative to the signal's reference price, not to the
live entry price stored in the record. -/
theorem recordRSIDivergence_riskReward_and_tpsl_order
    (symbol signalId : String) (signal : DivergenceSignal)
    (currentPrice : ℚ) (now : ℤ) (price tpPercent slPercent : ℚ)
    (hp : 0 < price) (htp0 : 0 < tpPercent) (hsl0 : 0 < slPercent) :
    ((recordRSIDivergence symbol signal currentPrice now signalId).riskRewardRatio =
      |(recordRSIDivergence symbol signal currentPrice now signalId).takeProfit -
        (recordRSIDivergence symbol signal currentPrice now signalId).entryPrice| /
      |(recordRSIDivergence symbol signal currentPrice now signalId).entryPrice -
        (recordRSIDivergence symbol signal currentPrice now signalId).stopLoss|) ∧
    (calculateTPSL price true tpPercent slPercent).2 < price ∧
    price < (calculateTPSL price true tpPercent slPercent).1 ∧
    (calculateTPSL price false tpPercent slPercent).1 < price ∧
    price < (calculateTPSL price false tpPercent slPercent).2 := by
  refine ⟨rfl, ?_, ?_, ?_, ?_⟩ <;> simp [calculateTPSL] <;>
    nlinarith [mul_pos hp htp0, mul_pos hp hsl0]

/-- C8 witness: the ratio identity and the orderings at a concrete signal
(price 95, TP/SL 1%) recorded at live price 100. -/
theorem recordRSIDivergence_riskReward_and_tpsl_order_witness :
    ((recordRSIDivergence "BTCUSDT"
        ⟨.BULLISH, 95, 35, 0, 95 * (1 + 1/100), 95 * (1 - 1/100), 70⟩
        100 0 "SIG_3").riskRewardRatio =
      |(19/20 : ℚ) * 101 - 100| / |100 - (19/20 : ℚ) * 99|) ∧
    (calculateTPSL 95 true 1 1).2 < 95 ∧ (95 : ℚ) < (calculateTPSL 95 true 1 1).1 := by
  have h := recordRSIDivergence_riskReward_and_tpsl_order "BTCUSDT" "SIG_3"
    ⟨.BULLISH, 95, 35, 0, 95 * (1 + 1/100), 95 * (1 - 1/100), 70⟩
    100 0 95 1 1 (by norm_num) (by norm_num) (by norm_num)
  refine ⟨?_, h.2.1, h.2.2.1⟩
  rw [h.1]
  norm_num [recordRSIDivergence]

/-- C8 counterexample: the concrete bullish record entered at live price 100
against a signal whose reference price is 95 violates the claimed ordering
`takeProfit > entryPrice`: its TP is 95.95 while its entry price is 100. -/
theorem recordRSIDivergence_bullish_order_counterexample :
    (recordRSIDivergence "BTCUSDT"
        ⟨.BULLISH, 95, 35, 0, 95 * (1 + 1/100), 95 * (1 - 1/100), 70⟩
        100 0 "SIG_3").signalSubType = "BULLISH" ∧
    ¬((recordRSIDivergence "BTCUSDT"
        ⟨.BULLISH, 95, 35, 0, 95 * (1 + 1/100), 95 * (1 - 1/100), 70⟩
        100 0 "SIG_3").takeProfit >
      (recordRSIDivergence "BTCUSDT"
        ⟨.BULLISH, 95, 35, 0, 95 * (1 + 1/100), 95 * (1 - 1/100), 70⟩
        100 0 "SIG_3").entryPrice) := by
  constructor
  · rfl
  · norm_num [recordRSIDivergence]

/-- C4 (amended): `analyzeMarketStructure` classifies a signal only when the
types of the latest THREE structure points alternate (HIGH,LOW,HIGH or
LOW,HIGH,LOW from oldest of the three to latest); the type of the fourth
(oldest) point of the window is never checked, so a window whose four types do
not alternate can still classify. -/
theorem analyzeMarketStructure_latest_three_alternate
    (structurePoints : List MarketStructurePoint)
    (currentPrice tpPercent slPercent : ℚ) (now : ℤ) (s : MarketStructureSignal)
    (h : analyzeMarketStructure structurePoints currentPrice tpPercent slPercent
      now = some s) :
    ∃ p4 p3 p2 p1, last4 structurePoints = some (p4, p3, p2, p1) ∧
      ((p1.type = .HIGH ∧ p2.type = .LOW ∧ p3.type = .HIGH) ∨
       (p1.type = .LOW ∧ p2.type = .HIGH ∧ p3.type = .LOW)) := by
  unfold analyzeMarketStructure at h
  by_cases hlen : structurePoints.length < 4
  · rw [if_pos hlen] at h
    exact absurd h (by simp)
  · rw [if_neg hlen] at h
    rcases h4 : last4 structurePoints with _ | ⟨p4, p3, p2, p1⟩
    · rw [h4] at h
      exact absurd h (by simp)
    · rw [h4] at h
      refine ⟨p4, p3, p2, p1, rfl, ?_⟩
      simp only at h
      split_ifs at h with h1 h2 h3 hh4
      · exact Or.inl ⟨h1.1, h1.2.1, h1.2.2.1⟩
      · exact Or.inr ⟨h2.1, h2.2.1, h2.2.2.1⟩
      · exact Or.inr ⟨h3.1, h3.2.1, h3.2.2.1⟩
      · exact Or.inl ⟨hh4.1, hh4.2.1, hh4.2.2.1⟩

/-- A four-point window whose types do NOT alternate (LOW, LOW, HIGH, LOW from
oldest to latest), used for C4. -/
def wStructPoints : List MarketStructurePoint :=
  [⟨90, 0, 0, .LOW⟩, ⟨95, 5, 0, .LOW⟩, ⟨105, 10, 0, .HIGH⟩, ⟨100, 15, 0, .LOW⟩]

/-- C4 counterexample: on the non-alternating window `wStructPoints`
(types LOW, LOW, HIGH, LOW) the source does NOT return null: it classifies a
HL bullish continuation, because it never inspects the fourth point's type. -/
theorem analyzeMarketStructure_nonalternating_counterexample :
    wStructPoints.map (·.type) = [.LOW, .LOW, .HIGH, .LOW] ∧
    analyzeMarketStructure wStructPoints 100 2 1 0 =
      some ⟨.BULLISH_CONTINUATION, 100, .HL, 0, 102, 99, 100⟩ := by
  constructor
  · rfl
  · with_unfolding_all decide

/-- C4 witness: the amended theorem applied to the concrete window
`wStructPoints`, discharging its hypothesis by evaluation. -/
theorem analyzeMarketStructure_latest_three_alternate_witness :
    ∃ p4 p3 p2 p1, last4 wStructPoints = some (p4, p3, p2, p1) ∧
      ((p1.type = .HIGH ∧ p2.type = .LOW ∧ p3.type = .HIGH) ∨
       (p1.type = .LOW ∧ p2.type = .HIGH ∧ p3.type = .LOW)) :=
  analyzeMarketStructure_latest_three_alternate wStructPoints 100 2 1 0
    ⟨.BULLISH_CONTINUATION, 100, .HL, 0, 102, 99, 100⟩ (by with_unfolding_all decide)

/-! ## Concrete candle data for witnesses and counterexamples -/

/-- A candle whose price fields all equal `c` (the RSI divergence detector
reads only the close). -/
def mkKline (c : ℚ) : Kline := ⟨0, c, c, c, c, 1, 0⟩

/-- 30 closes: an early dip, a fast rally to 120, a pullback to 110, and a
slower rally to a higher high of 122 — a textbook bearish RSI divergence. -/
def closesA : List ℚ :=
  [100, 100, 100, 100, 99, 100, 100, 100, 100, 100,
   104, 108, 112, 116, 120,
   118, 116, 114, 112, 110,
   112, 114, 116, 118, 120, 121, 243/2, 122,
   121, 120]

def klineA : List Kline := closesA.map mkKline

/-- The same series with only the last (unclosed) candle changed to 130. -/
def closesB : List ℚ := closesA.take 29 ++ [130]

def klineB : List Kline := closesB.map mkKline

/-- The RSI series the source computes over `closesA`. -/
def rsiA : List ℚ :=
  [50, 50, 50, 50, 50, 50, 50, 50, 50, 50, 50, 50, 50, 50,
   1909/20, 4347/50, 1983/25, 7249/100, 6633/100, 6077/100, 3201/50, 1674/25,
   1741/25, 1802/25, 743/10, 1507/20, 7589/100, 7643/100, 3643/50, 6937/100]

/-- The RSI series over `closesB`: only the final value differs from `rsiA`. -/
def rsiB : List ℚ := rsiA.take 29 ++ [2033/25]

/-- Divergence configuration used by the witnesses (pivot length 2, bear diff
1, bear level 50, TP/SL 1 %). -/
def cfgW : DivergenceConfig := ⟨2, 5, 1, 35, 50, 1, 1⟩

/-- The bearish signal the detector emits on `klineA` under `cfgW`. -/
def sigW : DivergenceSignal := ⟨.BEARISH, 122, 7643/100, 0, 6039/50, 6161/50, 100⟩

set_option maxHeartbeats 2000000 in
/-- The RSI series over `closesA`, evaluated. -/
theorem rsiA_eval : calculateRSIValues closesA 14 = rsiA := by
  norm_num [calculateRSIValues, wilderStep, round2, jsRound, List.range',
    closesA, rsiA, List.getD, List.getElem?_eq_some_iff, List.replicate]

set_option maxHeartbeats 2000000 in
/-- The RSI series over `closesB`, evaluated. -/
theorem rsiB_eval : calculateRSIValues closesB 14 = rsiB := by
  norm_num [calculateRSIValues, wilderStep, round2, jsRound, List.range',
    closesB, closesA, rsiB, rsiA, List.getD, List.getElem?_eq_some_iff,
    List.replicate]

set_option maxRecDepth 40000 in
set_option maxHeartbeats 2000000 in
/-- Price pivot highs of `closesA`: 120 at index 14 and 122 at index 27. -/
theorem closesA_pivotHighs :
    detectPivotHighs closesA 2 2 0 = [⟨120, 14, -960000⟩, ⟨122, 27, -180000⟩] := by
  simp +decide [detectPivotHighs, isPivotHigh, List.range', List.filterMap_cons,
    closesA]
  norm_num

set_option maxRecDepth 40000 in
set_option maxHeartbeats 2000000 in
/-- Price pivot lows of `closesA`: 99 at index 4 and 110 at index 19. -/
theorem closesA_pivotLows :
    detectPivotLows closesA 2 2 0 = [⟨99, 4, -1560000⟩, ⟨110, 19, -660000⟩] := by
  simp +decide [detectPivotLows, isPivotLow, List.range', List.filterMap_cons,
    closesA]
  norm_num

set_option maxRecDepth 40000 in
set_option maxHeartbeats 2000000 in
/-- RSI pivot highs of `rsiA`: 95.45 at index 14 and 76.43 at index 27. -/
theorem rsiA_pivotHighs :
    detectPivotHighs rsiA 2 2 0 =
      [⟨1909/20, 14, -960000⟩, ⟨7643/100, 27, -180000⟩] := by
  simp +decide [detectPivotHighs, isPivotHigh, List.range', List.filterMap_cons,
    rsiA]
  norm_num

set_option maxRecDepth 40000 in
set_option maxHeartbeats 2000000 in
/-- RSI pivot lows of `rsiA`: a single pivot, 60.77 at index 19. -/
theorem rsiA_pivotLows :
    detectPivotLows rsiA 2 2 0 = [⟨6077/100, 19, -660000⟩] := by
  simp +decide [detectPivotLows, isPivotLow, List.range', List.filterMap_cons,
    rsiA]
  norm_num

set_option maxRecDepth 40000 in
set_option maxHeartbeats 2000000 in
/-- Price pivot highs of `closesB`: raising the final close to 130 kills the
pivot at index 27, leaving only the one at 14. -/
theorem closesB_pivotHighs :
    detectPivotHighs closesB 2 2 0 = [⟨120, 14, -960000⟩] := by
  simp +decide [detectPivotHighs, isPivotHigh, List.range', List.filterMap_cons,
    closesB, closesA]
  norm_num

set_option maxRecDepth 40000 in
set_option maxHeartbeats 2000000 in
/-- Price pivot lows of `closesB` (unchanged from `closesA`). -/
theorem closesB_pivotLows :
    detectPivotLows closesB 2 2 0 = [⟨99, 4, -1560000⟩, ⟨110, 19, -660000⟩] := by
  simp +decide [detectPivotLows, isPivotLow, List.range', List.filterMap_cons,
    closesB, closesA]
  norm_num

set_option maxRecDepth 40000 in
set_option maxHeartbeats 2000000 in
/-- RSI pivot highs of `rsiB`: only the pivot at index 14 survives. -/
theorem rsiB_pivotHighs :
    detectPivotHighs rsiB 2 2 0 = [⟨1909/20, 14, -960000⟩] := by
  simp +decide [detectPivotHighs, isPivotHigh, List.range', List.filterMap_cons,
    rsiB, rsiA]
  norm_num

set_option maxRecDepth 40000 in
set_option maxHeartbeats 2000000 in
/-- RSI pivot lows of `rsiB`. -/
theorem rsiB_pivotLows :
    detectPivotLows rsiB 2 2 0 = [⟨6077/100, 19, -660000⟩] := by
  simp +decide [detectPivotLows, isPivotLow, List.range', List.filterMap_cons,
    rsiB, rsiA]
  norm_num

set_option maxRecDepth 40000 in
set_option maxHeartbeats 1000000 in
/-- The detector on `klineA` under `cfgW` emits the bearish signal `sigW`. -/
theorem detectA_eval : detectRSIDivergence klineA cfgW 0 = some sigW := by
  have h30 : klineA.length = 30 := by with_unfolding_all decide
  have hclose : klineA.map (·.close) = closesA := by with_unfolding_all decide
  simp only [detectRSIDivergence, cfgW, hclose, rsiA_eval, closesA_pivotHighs,
    closesA_pivotLows, rsiA_pivotHighs, rsiA_pivotLows, h30]
  norm_num [rsiDivergenceBullCheck, rsiDivergenceBearCheck, getRecentPivots,
    last2, calculateTPSL, sigW]

set_option maxRecDepth 40000 in
set_option maxHeartbeats 1000000 in
/-- The detector on `klineB` (same candles, last close changed) emits nothing. -/
theorem detectB_eval : detectRSIDivergence klineB cfgW 0 = none := by
  have h30 : klineB.length = 30 := by with_unfolding_all decide
  have hclose : klineB.map (·.close) = closesB := by with_unfolding_all decide
  simp only [detectRSIDivergence, cfgW, hclose, rsiB_eval, closesB_pivotHighs,
    closesB_pivotLows, rsiB_pivotHighs, rsiB_pivotLows, h30]
  norm_num [rsiDivergenceBullCheck, rsiDivergenceBearCheck, getRecentPivots,
    last2, calculateTPSL]

/-- A successful bullish check always carries type BULLISH. -/
theorem rsiDivergenceBullCheck_type (a b : List PivotPoint) (c : DivergenceConfig)
    (now : ℤ) (s : DivergenceSignal)
    (h : rsiDivergenceBullCheck a b c now = some s) : s.type = .BULLISH := by
  unfold rsiDivergenceBullCheck at h
  rcases h2a : last2 a with _ | ⟨pa, ca⟩ <;> rw [h2a] at h
  · exact absurd h (by simp)
  · rcases h2b : last2 b with _ | ⟨pb, cb⟩ <;> rw [h2b] at h
    · exact absurd h (by simp)
    · dsimp only at h
      split_ifs at h with hc
      · cases h
        rfl

/-- A successful bearish check exposes exactly the source's three conditions
on the last two price/RSI pivot highs and copies their values into the
signal. -/
theorem rsiDivergenceBearCheck_sound (a b : List PivotPoint) (c : DivergenceConfig)
    (now : ℤ) (s : DivergenceSignal)
    (h : rsiDivergenceBearCheck a b c now = some s) :
    ∃ prevPH curPH prevRH curRH : PivotPoint,
      last2 a = some (prevPH, curPH) ∧ last2 b = some (prevRH, curRH) ∧
      curPH.value > prevPH.value ∧
      curRH.value < prevRH.value - c.bearDivergenceDiff ∧
      curRH.value ≥ c.bearRsiLevel ∧
      s.price = curPH.value ∧ s.rsi = curRH.value := by
  unfold rsiDivergenceBearCheck at h
  rcases h2a : last2 a with _ | ⟨pa, ca⟩ <;> rw [h2a] at h
  · exact absurd h (by simp)
  · rcases h2b : last2 b with _ | ⟨pb, cb⟩ <;> rw [h2b] at h
    · exact absurd h (by simp)
    · dsimp only at h
      split_ifs at h with hc
      · cases h
        exact ⟨pa, ca, pb, cb, rfl, rfl, hc.1, hc.2.1, hc.2.2, rfl, rfl⟩

/-- C1: whenever `detectRSIDivergence` returns a BEARISH signal, the latest
price pivot high strictly exceeds the previous one, the latest RSI pivot high
is below the previous one minus `bearDivergenceDiff` and at least
`bearRsiLevel`, and the signal's price and rsi fields equal the latest price
and RSI pivot-high values. -/
theorem detectRSIDivergence_bearish_conditions
    (klineData : List Kline) (config : DivergenceConfig) (now : ℤ)
    (s : DivergenceSignal)
    (h : detectRSIDivergence klineData config now = some s)
    (ht : s.type = .BEARISH) :
    ∃ prevPH curPH prevRH curRH : PivotPoint,
      last2 (getRecentPivots (detectPivotHighs (klineData.map (·.close))
        config.pivotLength config.pivotLength now) 2) = some (prevPH, curPH) ∧
      last2 (getRecentPivots (detectPivotHighs
        (calculateRSIValues (klineData.map (·.close)) 14)
        config.pivotLength config.pivotLength now) 2) = some (prevRH, curRH) ∧
      curPH.value > prevPH.value ∧
      curRH.value < prevRH.value - config.bearDivergenceDiff ∧
      curRH.value ≥ config.bearRsiLevel ∧
      s.price = curPH.value ∧ s.rsi = curRH.value := by
  unfold detectRSIDivergence at h
  by_cases h30 : klineData.length < 30
  · rw [if_pos h30] at h
    exact absurd h (by simp)
  · rw [if_neg h30] at h
    dsimp only at h
    rcases hbull : rsiDivergenceBullCheck
        (getRecentPivots (detectPivotLows (klineData.map (·.close))
          config.pivotLength config.pivotLength now) 2)
        (getRecentPivots (detectPivotLows
          (calculateRSIValues (klineData.map (·.close)) 14)
          config.pivotLength config.pivotLength now) 2) config now with _ | s'
    · rw [hbull] at h
      exact rsiDivergenceBearCheck_sound _ _ _ _ _ h
    · rw [hbull] at h
      cases h
      exact absurd (rsiDivergenceBullCheck_type _ _ _ _ _ hbull) (by rw [ht]; simp)

/-- C1 witness: the theorem applied to the concrete 30-candle series
`klineA`, on which the detector emits the bearish signal `sigW`. -/
theorem detectRSIDivergence_bearish_conditions_witness :
    ∃ prevPH curPH prevRH curRH : PivotPoint,
      last2 (getRecentPivots (detectPivotHighs (klineA.map (·.close))
        cfgW.pivotLength cfgW.pivotLength 0) 2) = some (prevPH, curPH) ∧
      last2 (getRecentPivots (detectPivotHighs
        (calculateRSIValues (klineA.map (·.close)) 14)
        cfgW.pivotLength cfgW.pivotLength 0) 2) = some (prevRH, curRH) ∧
      curPH.value > prevPH.value ∧
      curRH.value < prevRH.value - cfgW.bearDivergenceDiff ∧
      curRH.value ≥ cfgW.bearRsiLevel ∧
      sigW.price = curPH.value ∧ sigW.rsi = curRH.value :=
  detectRSIDivergence_bearish_conditions klineA cfgW 0 sigW detectA_eval rfl

/-- Pointwise congruence for `List.all`. -/
theorem list_all_congr {α : Type} (xs : List α) (f g : α → Bool)
    (h : ∀ x ∈ xs, f x = g x) : xs.all f = xs.all g := by
  induction xs with
  | nil => rfl
  | cons a t ih =>
    simp only [List.all_cons, h a (by simp), ih (fun x hx => h x (by simp [hx]))]

/-- C5 (amended): the pivot test at index `i` reads only the window
`[i − leftBars, i + rightBars]`, so on two series of equal length that agree
everywhere except possibly at the last position, every pivot decision whose
window ends before the last position is identical.  (The final candle IS read
by the windows that reach it and by the RSI recursion, so the overall
detection result can change with the last candle — see the counterexample.) -/
theorem isPivot_last_candle_local (data data' : List ℚ) (leftBars rightBars i : ℕ)
    (hlen : data.length = data'.length)
    (htake : data.take (data.length - 1) = data'.take (data'.length - 1))
    (hl : leftBars ≤ i) (hi : i + rightBars + 1 < data.length) :
    isPivotHigh data leftBars rightBars i = isPivotHigh data' leftBars rightBars i ∧
    isPivotLow data leftBars rightBars i = isPivotLow data' leftBars rightBars i := by
  have hag : ∀ j, j + 1 < data.length → data.getD j 0 = data'.getD j 0 := by
    intro j hj
    have h1 : data.getD j 0 = (data.take (data.length - 1)).getD j 0 := by
      rw [List.getD_eq_getElem?_getD, List.getD_eq_getElem?_getD,
        List.getElem?_take, if_pos (by omega)]
    have h2 : data'.getD j 0 = (data'.take (data'.length - 1)).getD j 0 := by
      rw [List.getD_eq_getElem?_getD, List.getD_eq_getElem?_getD,
        List.getElem?_take, if_pos (by omega)]
    rw [h1, h2, htake]
  have hi' : data.getD i 0 = data'.getD i 0 := hag i (by omega)
  have hleft : ∀ j ∈ List.range' (i - leftBars) leftBars,
      data.getD j 0 = data'.getD j 0 := by
    intro j hj
    rw [List.mem_range'_1] at hj
    exact hag j (by omega)
  have hright : ∀ j ∈ List.range' (i + 1) rightBars,
      data.getD j 0 = data'.getD j 0 := by
    intro j hj
    rw [List.mem_range'_1] at hj
    exact hag j (by omega)
  have eL1 := list_all_congr (List.range' (i - leftBars) leftBars)
    (fun j => decide (data.getD j 0 < data.getD i 0))
    (fun j => decide (data'.getD j 0 < data'.getD i 0))
    (fun j hj => by simp only [hleft j hj, hi'])
  have eR1 := list_all_congr (List.range' (i + 1) rightBars)
    (fun j => decide (data.getD j 0 < data.getD i 0))
    (fun j => decide (data'.getD j 0 < data'.getD i 0))
    (fun j hj => by simp only [hright j hj, hi'])
  have eL2 := list_all_congr (List.range' (i - leftBars) leftBars)
    (fun j => decide (data.getD i 0 < data.getD j 0))
    (fun j => decide (data'.getD i 0 < data'.getD j 0))
    (fun j hj => by simp only [hleft j hj, hi'])
  have eR2 := list_all_congr (List.range' (i + 1) rightBars)
    (fun j => decide (data.getD i 0 < data.getD j 0))
    (fun j => decide (data'.getD i 0 < data'.getD j 0))
    (fun j hj => by simp only [hright j hj, hi'])
  constructor
  · unfold isPivotHigh
    rw [eL1, eR1]
  · unfold isPivotLow
    rw [eL2, eR2]

/-- C5 witness: the locality theorem at the concrete series `closesA` and
`closesB` (which differ only in the last element) and the pivot at index 14. -/
theorem isPivot_last_candle_local_witness :
    isPivotHigh closesA 2 2 14 = isPivotHigh closesB 2 2 14 ∧
    isPivotLow closesA 2 2 14 = isPivotLow closesB 2 2 14 :=
  isPivot_last_candle_local closesA closesB 2 2 14
    (by with_unfolding_all decide) (by with_unfolding_all decide)
    (by decide) (by with_unfolding_all decide)

/-- C5 counterexample: `klineA` and `klineB` have the same length and agree on
every candle except the last, yet the divergence detector returns a BEARISH
signal on `klineA` and nothing on `klineB` — the detection result DOES depend
on the most recent (possibly unclosed) candle. -/
theorem detectRSIDivergence_last_candle_counterexample :
    klineA.length = klineB.length ∧
    klineA.take (klineA.length - 1) = klineB.take (klineB.length - 1) ∧
    detectRSIDivergence klineA cfgW 0 ≠ detectRSIDivergence klineB cfgW 0 := by
  refine ⟨by with_unfolding_all decide, by with_unfolding_all decide, ?_⟩
  rw [detectA_eval, detectB_eval]
  simp


theorem wilderStep_nonneg (period : ℕ) (hp : 0 < period) (avg x : ℚ)
    (ha : 0 ≤ avg) (hx : 0 ≤ x) : 0 ≤ wilderStep period avg x := by
  unfold wilderStep
  have h1 : (1 : ℚ) ≤ (period : ℚ) := by exact_mod_cast hp
  have : 0 ≤ avg * ((period : ℚ) - 1) := by nlinarith
  positivity

theorem calculateRSIAverages_nonneg (klineData : List Kline) (period : ℕ)
    (hp : 0 < period) :
    0 ≤ (calculateRSIAverages klineData period).1 ∧
    0 ≤ (calculateRSIAverages klineData period).2 := by
  unfold calculateRSIAverages
  set closePrices := klineData.map (·.close) with hc
  set priceChanges := List.zipWith (fun a b => a - b) (closePrices.drop 1) closePrices with hpc
  set gains := priceChanges.map fun c => if 0 < c then c else 0 with hg
  set losses := priceChanges.map fun c => if c < 0 then |c| else 0 with hl
  have hgn : ∀ x ∈ gains, 0 ≤ x := by
    intro x hx
    rw [hg, List.mem_map] at hx
    obtain ⟨c, _, rfl⟩ := hx
    split_ifs with h
    · exact le_of_lt h
    · exact le_refl 0
  have hln : ∀ x ∈ losses, 0 ≤ x := by
    intro x hx
    rw [hl, List.mem_map] at hx
    obtain ⟨c, _, rfl⟩ := hx
    split_ifs with h
    · exact abs_nonneg c
    · exact le_refl 0
  have hpq : (0 : ℚ) ≤ (period : ℚ) := by positivity
  have hinit1 : 0 ≤ (gains.take period).sum / (period : ℚ) :=
    div_nonneg (List.sum_nonneg fun x hx => hgn x (List.mem_of_mem_take hx)) hpq
  have hinit2 : 0 ≤ (losses.take period).sum / (period : ℚ) :=
    div_nonneg (List.sum_nonneg fun x hx => hln x (List.mem_of_mem_take hx)) hpq
  have main : ∀ (l : List (ℚ × ℚ)) (init : ℚ × ℚ),
      (∀ x ∈ l, 0 ≤ x.1 ∧ 0 ≤ x.2) → 0 ≤ init.1 → 0 ≤ init.2 →
      0 ≤ (l.foldl (fun st gl =>
        (wilderStep period st.1 gl.1, wilderStep period st.2 gl.2)) init).1 ∧
      0 ≤ (l.foldl (fun st gl =>
        (wilderStep period st.1 gl.1, wilderStep period st.2 gl.2)) init).2 := by
    intro l
    induction l with
    | nil => intro init _ h1 h2; exact ⟨h1, h2⟩
    | cons a t ih =>
      intro init hmem h1 h2
      simp only [List.foldl_cons]
      exact ih _ (fun x hx => hmem x (by simp [hx]))
        (wilderStep_nonneg period hp _ _ h1 (hmem a (by simp)).1)
        (wilderStep_nonneg period hp _ _ h2 (hmem a (by simp)).2)
  refine main _ _ ?_ hinit1 hinit2
  intro x hx
  obtain ⟨hx1, hx2⟩ := List.of_mem_zip hx
  exact ⟨hgn _ (List.mem_of_mem_drop hx1), hln _ (List.mem_of_mem_drop hx2)⟩

theorem round2_nonneg (q : ℚ) (h : 0 ≤ q) : 0 ≤ round2 q := by
  unfold round2 jsRound
  have : (0 : ℤ) ≤ ⌊q * 100 + 1 / 2⌋ := by
    rw [Int.le_floor]
    push_cast
    linarith
  positivity

theorem round2_le_100 (q : ℚ) (h : q < 100) : round2 q ≤ 100 := by
  unfold round2 jsRound
  have h1 : ⌊q * 100 + 1 / 2⌋ ≤ 10000 := by
    have : q * 100 + 1 / 2 ≤ 1 / 2 + (10000 : ℤ) := by push_cast; linarith
    calc ⌊q * 100 + 1 / 2⌋ ≤ ⌊(1 : ℚ) / 2 + (10000 : ℤ)⌋ := Int.floor_le_floor this
    _ = ⌊(1 : ℚ) / 2⌋ + 10000 := Int.floor_add_int _ _
    _ = 10000 := by norm_num
  have h2 : ((⌊q * 100 + 1 / 2⌋ : ℤ) : ℚ) ≤ 10000 := by exact_mod_cast h1
  linarith

/-- C3 (amended): with at least `period + 1` candles, `calculateRSI` returns a
value with `0 ≤ rsi ≤ 100`; when the smoothed average loss over the window is
0, the source caps RS at 100 and the returned rsi is 99.01 — not 100. -/
theorem calculateRSI_bounds (klineData : List Kline) (period : ℕ) (now : ℤ)
    (hp : 0 < period) (hlen : period + 1 ≤ klineData.length) :
    ∃ d, calculateRSI klineData period now = .ok d ∧
      0 ≤ d.rsi ∧ d.rsi ≤ 100 ∧
      (smoothedAvgLoss klineData period = 0 → d.rsi = 9901 / 100) := by
  unfold calculateRSI
  rw [if_neg (by omega)]
  refine ⟨_, rfl, ?_, ?_, ?_⟩
  all_goals
    have hnn := calculateRSIAverages_nonneg klineData period hp
  · by_cases hz : (calculateRSIAverages klineData period).2 = 0
    · simp only [hz, if_pos rfl]
      apply round2_nonneg
      norm_num
    · simp only [if_neg hz]
      apply round2_nonneg
      have hrs : 0 ≤ (calculateRSIAverages klineData period).1 /
          (calculateRSIAverages klineData period).2 := div_nonneg hnn.1 hnn.2
      have : 100 / (1 + (calculateRSIAverages klineData period).1 /
          (calculateRSIAverages klineData period).2) ≤ 100 := by
        apply div_le_of_le_mul₀ (by linarith) (by norm_num)
        nlinarith
      linarith
  · by_cases hz : (calculateRSIAverages klineData period).2 = 0
    · simp only [hz, if_pos rfl]
      apply round2_le_100
      norm_num
    · simp only [if_neg hz]
      apply round2_le_100
      have hrs : 0 ≤ (calculateRSIAverages klineData period).1 /
          (calculateRSIAverages klineData period).2 := div_nonneg hnn.1 hnn.2
      have : 0 < 100 / (1 + (calculateRSIAverages klineData period).1 /
          (calculateRSIAverages klineData period).2) := by positivity
      linarith
  · intro hzero
    unfold smoothedAvgLoss at hzero
    rw [hzero]
    norm_num [round2, jsRound]


/-- Fifteen identical candles: every price change is 0, so the smoothed
average loss is 0 (C3 data). -/
def flatKline : List Kline := List.replicate 15 (mkKline 100)

/-- C3 counterexample: on a flat series the smoothed average loss is 0, yet
`calculateRSI` returns 99.01, not 100 — "rsi = 100 exactly when average loss
is 0" fails on the code (the `avgLoss === 0` branch sets RS = 100, giving
`100 − 100/101`). -/
theorem calculateRSI_avgLoss_zero_not_100 :
    smoothedAvgLoss flatKline 14 = 0 ∧
    calculateRSI flatKline 14 0 = .ok ⟨9901 / 100, 0, 14⟩ ∧
    (9901 / 100 : ℚ) ≠ 100 := by
  refine ⟨?_, ?_, by norm_num⟩
  · norm_num [smoothedAvgLoss, calculateRSIAverages, wilderStep, flatKline,
      mkKline, List.replicate]
  · norm_num [calculateRSI, calculateRSIAverages, wilderStep, round2, jsRound,
      flatKline, mkKline, List.replicate]

/-- C3 witness: the bounds theorem applied to the concrete flat series. -/
theorem calculateRSI_bounds_witness :
    ∃ d, calculateRSI flatKline 14 0 = .ok d ∧
      0 ≤ d.rsi ∧ d.rsi ≤ 100 ∧
      (smoothedAvgLoss flatKline 14 = 0 → d.rsi = 9901 / 100) :=
  calculateRSI_bounds flatKline 14 0 (by norm_num)
    (by norm_num [flatKline, List.replicate])

/-- A successful bullish check is stamped with the detection time. -/
theorem rsiDivergenceBullCheck_timestamp (a b : List PivotPoint)
    (c : DivergenceConfig) (now : ℤ) (s : DivergenceSignal)
    (h : rsiDivergenceBullCheck a b c now = some s) : s.timestamp = now := by
  unfold rsiDivergenceBullCheck at h
  rcases h2a : last2 a with _ | ⟨pa, ca⟩ <;> rw [h2a] at h
  · exact absurd h (by simp)
  · rcases h2b : last2 b with _ | ⟨pb, cb⟩ <;> rw [h2b] at h
    · exact absurd h (by simp)
    · dsimp only at h
      split_ifs at h
      cases h
      rfl

/-- A successful bearish check is stamped with the detection time. -/
theorem rsiDivergenceBearCheck_timestamp (a b : List PivotPoint)
    (c : DivergenceConfig) (now : ℤ) (s : DivergenceSignal)
    (h : rsiDivergenceBearCheck a b c now = some s) : s.timestamp = now := by
  unfold rsiDivergenceBearCheck at h
  rcases h2a : last2 a with _ | ⟨pa, ca⟩ <;> rw [h2a] at h
  · exact absurd h (by simp)
  · rcases h2b : last2 b with _ | ⟨pb, cb⟩ <;> rw [h2b] at h
    · exact absurd h (by simp)
    · dsimp only at h
      split_ifs at h
      cases h
      rfl

/-- An emitted RSI divergence signal is stamped with the detection time. -/
theorem detectRSIDivergence_timestamp (k : List Kline) (c : DivergenceConfig)
    (now : ℤ) (s : DivergenceSignal)
    (h : detectRSIDivergence k c now = some s) : s.timestamp = now := by
  unfold detectRSIDivergence at h
  by_cases h30 : k.length < 30
  · rw [if_pos h30] at h
    exact absurd h (by simp)
  · rw [if_neg h30] at h
    dsimp only at h
    rcases hbull : rsiDivergenceBullCheck
        (getRecentPivots (detectPivotLows (k.map (·.close))
          c.pivotLength c.pivotLength now) 2)
        (getRecentPivots (detectPivotLows
          (calculateRSIValues (k.map (·.close)) 14)
          c.pivotLength c.pivotLength now) 2) c now with _ | s' <;> rw [hbull] at h
    · exact rsiDivergenceBearCheck_timestamp _ _ _ _ _ h
    · cases h
      exact rsiDivergenceBullCheck_timestamp _ _ _ _ _ hbull

/-- An emitted market-structure signal is stamped with the detection time. -/
theorem analyzeMarketStructure_timestamp (pts : List MarketStructurePoint)
    (cp tp sl : ℚ) (now : ℤ) (s : MarketStructureSignal)
    (h : analyzeMarketStructure pts cp tp sl now = some s) : s.timestamp = now := by
  unfold analyzeMarketStructure at h
  by_cases hlen : pts.length < 4
  · rw [if_pos hlen] at h
    exact absurd h (by simp)
  · rw [if_neg hlen] at h
    rcases h4 : last4 pts with _ | ⟨p4, p3, p2, p1⟩ <;> rw [h4] at h
    · exact absurd h (by simp)
    · dsimp only at h
      split_ifs at h <;> (cases h; rfl)

theorem detectMarketStructureSignal_timestamp (k : List Kline) (cp : ℚ)
    (pl : ℕ) (tp sl : ℚ) (now : ℤ) (s : MarketStructureSignal)
    (h : detectMarketStructureSignal k cp pl tp sl now = some s) :
    s.timestamp = now := by
  unfold detectMarketStructureSignal at h
  by_cases hlen : k.length < 20
  · rw [if_pos hlen] at h
    exact absurd h (by simp)
  · rw [if_neg hlen] at h
    exact analyzeMarketStructure_timestamp _ _ _ _ _ _ h

/-- An emitted volume divergence signal is stamped with the detection time. -/
theorem detectVolumeDivergence_timestamp (k : List Kline) (lb : ℕ) (now : ℤ)
    (s : VolumeDivergenceSignal)
    (h : detectVolumeDivergence k lb now = some s) : s.timestamp = now := by
  unfold detectVolumeDivergence at h
  by_cases hlen : k.length < lb + 1
  · rw [if_pos hlen] at h
    exact absurd h (by simp)
  · rw [if_neg hlen] at h
    simp only [Option.map_eq_some'] at h
    obtain ⟨dt, _, rfl⟩ := h
    rfl

/-- An emitted MACD divergence signal is stamped with the detection time
(both the bullish and the bearish branch write `now` into `timestamp`). -/
theorem detectMACDDivergence_timestamp (k : List Kline) (pl : ℕ) (tp sl : ℚ)
    (now : ℤ) (s : MACDDivergenceSignal)
    (h : detectMACDDivergence k pl tp sl now = some s) : s.timestamp = now := by
  unfold detectMACDDivergence at h
  by_cases hlen : k.length < 50
  · rw [if_pos hlen] at h
    exact absurd h (by simp)
  · rw [if_neg hlen] at h
    dsimp only at h
    split at h
    next s' heq =>
      cases h
      split at heq
      next =>
        split_ifs at heq
        cases heq
        rfl
      next => exact absurd heq (by simp)
    next heq =>
      split at h
      next =>
        split_ifs at h
        cases h
        rfl
      next => exact absurd h (by simp)

/-- If the RSI divergence filter emits a signal, it stores that signal (with
the detection timestamp) as the new `lastDivergenceSignal`. -/
theorem divergenceDetectAndFilter_emit (last : Option DivergenceSignal)
    (md : MarketData) (cfg : DivergenceConfig) (t : ℤ) (s : DivergenceSignal)
    (st : Option DivergenceSignal)
    (h : SignalService.divergenceDetectAndFilter last md cfg t = (some s, st)) :
    st = some s ∧ s.timestamp = t := by
  unfold SignalService.divergenceDetectAndFilter at h
  rcases hd : detectRSIDivergence md.klineData cfg t with _ | d <;> rw [hd] at h
  · exact absurd h (by simp)
  · dsimp only at h
    split_ifs at h with hnew
    · cases h
      exact ⟨rfl, detectRSIDivergence_timestamp _ _ _ _ hd⟩
    · exact absurd h (by simp)

/-- Structure-service analogue of `divergenceDetectAndFilter_emit`. -/
theorem structureDetectAndFilter_emit (last : Option MarketStructureSignal)
    (md : MarketData) (pl : ℕ) (tp sl : ℚ) (t : ℤ) (s : MarketStructureSignal)
    (st : Option MarketStructureSignal)
    (h : MarketStructureService.structureDetectAndFilter last md pl tp sl t =
      (some s, st)) :
    st = some s ∧ s.timestamp = t := by
  unfold MarketStructureService.structureDetectAndFilter at h
  rcases hd : detectMarketStructureSignal md.klineData md.currentPrice pl tp sl t
      with _ | d <;> rw [hd] at h
  · exact absurd h (by simp)
  · dsimp only at h
    split_ifs at h with hnew
    · cases h
      exact ⟨rfl, detectMarketStructureSignal_timestamp _ _ _ _ _ _ _ hd⟩
    · exact absurd h (by simp)

/-- Volume-divergence-service analogue of `divergenceDetectAndFilter_emit`. -/
theorem volumeDivergenceDetectAndFilter_emit
    (last : Option VolumeDivergenceSignal) (md : MarketData) (lb : ℕ) (t : ℤ)
    (s : VolumeDivergenceSignal) (st : Option VolumeDivergenceSignal)
    (h : VolumeDivergenceService.volumeDivergenceDetectAndFilter last md lb t =
      (some s, st)) :
    st = some s ∧ s.timestamp = t := by
  unfold VolumeDivergenceService.volumeDivergenceDetectAndFilter at h
  rcases hd : detectVolumeDivergence md.klineData lb t with _ | d <;> rw [hd] at h
  · exact absurd h (by simp)
  · dsimp only at h
    split_ifs at h with hnew
    · cases h
      exact ⟨rfl, detectVolumeDivergence_timestamp _ _ _ _ hd⟩
    · exact absurd h (by simp)

/-- MACD-service analogue of `divergenceDetectAndFilter_emit`. -/
theorem macdDetectAndFilter_emit (last : Option MACDDivergenceSignal)
    (md : MarketData) (pl : ℕ) (tp sl : ℚ) (t : ℤ) (s : MACDDivergenceSignal)
    (st : Option MACDDivergenceSignal)
    (h : MACDSignalService.macdDetectAndFilter last md pl tp sl t = (some s, st)) :
    st = some s ∧ s.timestamp = t := by
  unfold MACDSignalService.macdDetectAndFilter at h
  rcases hd : detectMACDDivergence md.klineData pl tp sl t with _ | d <;> rw [hd] at h
  · exact absurd h (by simp)
  · dsimp only at h
    split_ifs at h with hnew
    · cases h
      exact ⟨rfl, detectMACDDivergence_timestamp _ _ _ _ _ _ hd⟩
    · exact absurd h (by simp)

/-- C6: for each cooldown-gated detector service — RSI divergence, MACD
divergence, market structure and volume divergence — once a signal is emitted
at time `t1`, a second check at any time `t2` with `t2 − t1 < cooldown`
returns null (so of two candidates inside one cooldown window at most one is
emitted); and the configured cooldowns are 5 minutes for the RSI and MACD
divergence services, 10 minutes for market structure and 3 minutes for
volume divergence. -/
theorem detector_cooldown_suppresses_second_alert :
    (∀ (cooldown : ℤ) (last st : Option DivergenceSignal) (md md2 : MarketData)
       (cfg cfg2 : DivergenceConfig) (t1 t2 : ℤ) (s : DivergenceSignal),
      SignalService.checkForDivergenceSignal cooldown last md cfg t1 =
        (some s, st) →
      t2 - t1 < cooldown →
      (SignalService.checkForDivergenceSignal cooldown st md2 cfg2 t2).1 = none) ∧
    (∀ (cooldown : ℤ) (last st : Option MACDDivergenceSignal)
       (md md2 : MarketData) (pl pl2 : ℕ) (tp sl tp2 sl2 : ℚ) (t1 t2 : ℤ)
       (s : MACDDivergenceSignal),
      MACDSignalService.checkForMACDDivergenceSignal cooldown last md pl tp
        sl t1 = (some s, st) →
      t2 - t1 < cooldown →
      (MACDSignalService.checkForMACDDivergenceSignal cooldown st md2 pl2 tp2
        sl2 t2).1 = none) ∧
    (∀ (cooldown : ℤ) (last st : Option MarketStructureSignal)
       (md md2 : MarketData) (pl pl2 : ℕ) (tp sl tp2 sl2 : ℚ) (t1 t2 : ℤ)
       (s : MarketStructureSignal),
      MarketStructureService.checkForStructureSignal cooldown last md pl tp sl t1 =
        (some s, st) →
      t2 - t1 < cooldown →
      (MarketStructureService.checkForStructureSignal cooldown st md2 pl2 tp2
        sl2 t2).1 = none) ∧
    (∀ (cooldown : ℤ) (last st : Option VolumeDivergenceSignal)
       (md md2 : MarketData) (lb lb2 : ℕ) (t1 t2 : ℤ)
       (s : VolumeDivergenceSignal),
      VolumeDivergenceService.checkForVolumeDivergenceSignal cooldown last md lb t1 =
        (some s, st) →
      t2 - t1 < cooldown →
      (VolumeDivergenceService.checkForVolumeDivergenceSignal cooldown st md2
        lb2 t2).1 = none) ∧
    SignalService.signalCooldown = 5 * 60 * 1000 ∧
    MACDSignalService.signalCooldown = 5 * 60 * 1000 ∧
    MarketStructureService.signalCooldown = 10 * 60 * 1000 ∧
    VolumeDivergenceService.signalCooldown = 3 * 60 * 1000 := by
  refine ⟨?_, ?_, ?_, ?_, rfl, rfl, rfl, rfl⟩
  · intro cooldown last st md md2 cfg cfg2 t1 t2 s h hlt
    have key : st = some s ∧ s.timestamp = t1 := by
      unfold SignalService.checkForDivergenceSignal at h
      rcases last with _ | l
      · exact divergenceDetectAndFilter_emit _ _ _ _ _ _ h
      · dsimp only at h
        split_ifs at h with hcd
        · exact absurd h (by simp)
        · exact divergenceDetectAndFilter_emit _ _ _ _ _ _ h
    obtain ⟨rfl, hts⟩ := key
    unfold SignalService.checkForDivergenceSignal
    dsimp only
    rw [if_pos (by omega)]
  · intro cooldown last st md md2 pl pl2 tp sl tp2 sl2 t1 t2 s h hlt
    have key : st = some s ∧ s.timestamp = t1 := by
      unfold MACDSignalService.checkForMACDDivergenceSignal at h
      rcases last with _ | l
      · exact macdDetectAndFilter_emit _ _ _ _ _ _ _ _ h
      · dsimp only at h
        split_ifs at h with hcd
        · exact absurd h (by simp)
        · exact macdDetectAndFilter_emit _ _ _ _ _ _ _ _ h
    obtain ⟨rfl, hts⟩ := key
    unfold MACDSignalService.checkForMACDDivergenceSignal
    dsimp only
    rw [if_pos (by omega)]
  · intro cooldown last st md md2 pl pl2 tp sl tp2 sl2 t1 t2 s h hlt
    have key : st = some s ∧ s.timestamp = t1 := by
      unfold MarketStructureService.checkForStructureSignal at h
      rcases last with _ | l
      · exact structureDetectAndFilter_emit _ _ _ _ _ _ _ _ h
      · dsimp only at h
        split_ifs at h with hcd
        · exact absurd h (by simp)
        · exact structureDetectAndFilter_emit _ _ _ _ _ _ _ _ h
    obtain ⟨rfl, hts⟩ := key
    unfold MarketStructureService.checkForStructureSignal
    dsimp only
    rw [if_pos (by omega)]
  · intro cooldown last st md md2 lb lb2 t1 t2 s h hlt
    have key : st = some s ∧ s.timestamp = t1 := by
      unfold VolumeDivergenceService.checkForVolumeDivergenceSignal at h
      rcases last with _ | l
      · exact volumeDivergenceDetectAndFilter_emit _ _ _ _ _ _ h
      · dsimp only at h
        split_ifs at h with hcd
        · exact absurd h (by simp)
        · exact volumeDivergenceDetectAndFilter_emit _ _ _ _ _ _ h
    obtain ⟨rfl, hts⟩ := key
    unfold VolumeDivergenceService.checkForVolumeDivergenceSignal
    dsimp only
    rw [if_pos (by omega)]

/-- Market data carrying the concrete candle series `klineA` (C6 witness). -/
def mdA : MarketData := ⟨"BTCUSDT", 122, 0, klineA⟩

/-- C6 witness: on `mdA` the RSI divergence service emits `sigW` at time 0;
by the theorem, a second check 200 000 ms later (inside the 5-minute
cooldown) returns null. -/
theorem detector_cooldown_suppresses_second_alert_witness :
    (SignalService.checkForDivergenceSignal SignalService.signalCooldown
      (some sigW) mdA cfgW 200000).1 = none := by
  have h1 : SignalService.checkForDivergenceSignal SignalService.signalCooldown
      none mdA cfgW 0 = (some sigW, some sigW) := by
    simp [SignalService.checkForDivergenceSignal,
      SignalService.divergenceDetectAndFilter, mdA, detectA_eval]
  exact detector_cooldown_suppresses_second_alert.1
    SignalService.signalCooldown none (some sigW) mdA mdA cfgW cfgW 0 200000
    sigW h1 (by norm_num [SignalService.signalCooldown])

/-! ## C7: confidence gating in the scalping detectors -/

/-- Any alert produced by the shared emission block satisfies the
`minConfidence` gate and carries the requested alert type. -/
theorem emitIfConfident_gated (minC : ℚ) (t : ScalpingAlertType)
    (sym tf : String) (now : ℤ) (cp : ℚ) (sc : Option (TradeSide × ℚ))
    (a : ScalpingAlert)
    (h : ScalpingService.emitIfConfident minC t sym tf now cp sc = some a) :
    a.confidence ≥ minC ∧ a.type = t := by
  unfold ScalpingService.emitIfConfident at h
  rcases sc with _ | ⟨sig, conf⟩
  · exact absurd h (by simp)
  · dsimp only at h
    split_ifs at h with hge
    cases h
    exact ⟨hge, rfl⟩

/-- The EMA-crossover sub-detector only emits alerts at or above
`minConfidence`. -/
theorem detectEMACrossover_gated (cfg : ScalpingConfig) (sym tf : String)
    (k : List Kline) (cp : ℚ) (now : ℤ) (a : ScalpingAlert)
    (h : ScalpingService.detectEMACrossover cfg sym tf k cp now = some a) :
    a.confidence ≥ cfg.minConfidence ∧ a.type = .ema_crossover := by
  unfold ScalpingService.detectEMACrossover at h
  dsimp only at h
  split_ifs at h <;>
    first
      | exact emitIfConfident_gated _ _ _ _ _ _ _ _ h
      | exact absurd h (by simp)

/-- The Stochastic sub-detector only emits alerts at or above
`minConfidence`. -/
theorem detectStochasticSignal_gated (cfg : ScalpingConfig) (sym tf : String)
    (k : List Kline) (cp : ℚ) (now : ℤ) (a : ScalpingAlert)
    (h : ScalpingService.detectStochasticSignal cfg sym tf k cp now = some a) :
    a.confidence ≥ cfg.minConfidence ∧ a.type = .stochastic_signal := by
  unfold ScalpingService.detectStochasticSignal at h
  dsimp only at h
  split_ifs at h <;>
    first
      | exact emitIfConfident_gated _ _ _ _ _ _ _ _ h
      | exact absurd h (by simp)

/-- The Bollinger sub-detector only emits alerts at or above
`minConfidence`. -/
theorem detectBollingerSignal_gated (sqrtFn : ℚ → ℚ) (cfg : ScalpingConfig)
    (sym tf : String) (k : List Kline) (cp : ℚ) (now : ℤ) (a : ScalpingAlert)
    (h : ScalpingService.detectBollingerSignal sqrtFn cfg sym tf k cp now = some a) :
    a.confidence ≥ cfg.minConfidence ∧ a.type = .bollinger_squeeze := by
  unfold ScalpingService.detectBollingerSignal at h
  dsimp only at h
  split_ifs at h <;>
    first
      | exact emitIfConfident_gated _ _ _ _ _ _ _ _ h
      | exact absurd h (by simp)

/-- Every alert emitted by the volume-spike sub-detector is of type
`volume_spike` (this branch has no `minConfidence` gate at all). -/
theorem detectVolumeSpikeScalping_type (cfg : ScalpingConfig) (sym tf : String)
    (k : List Kline) (cp : ℚ) (now : ℤ) (a : ScalpingAlert)
    (h : ScalpingService.detectVolumeSpike cfg sym tf k cp now = some a) :
    a.type = .volume_spike := by
  unfold ScalpingService.detectVolumeSpike at h
  split_ifs at h
  rcases hlast : k.getLast? with _ | c <;> rw [hlast] at h
  · exact absurd h (by simp)
  · dsimp only at h
    split_ifs at h
    cases h
    rfl

/-- C7 (amended): every alert returned by `processMarketData` that comes from
the EMA-crossover, Stochastic or Bollinger sub-detector (i.e. whose type is not
`volume_spike`) has confidence ≥ `minConfidence`; the volume-spike sub-signal
is NOT gated by `minConfidence`, so the spec's universal claim fails for it. -/
theorem processMarketData_confidence_gate (sqrtFn : ℚ → ℚ)
    (cfg : ScalpingConfig) (tracker : Option ℤ) (sym tf : String)
    (k : List Kline) (cp : ℚ) (now : ℤ) (a : ScalpingAlert)
    (hmem : a ∈ (ScalpingService.processMarketData sqrtFn cfg tracker sym tf
      k cp now).1)
    (htype : a.type ≠ .volume_spike) :
    a.confidence ≥ cfg.minConfidence := by
  unfold ScalpingService.processMarketData at hmem
  split_ifs at hmem
  · dsimp only at hmem
    simp only [List.mem_filterMap, id_eq] at hmem
    obtain ⟨o, ho, rfl⟩ := hmem
    simp only [List.mem_cons, List.not_mem_nil, or_false] at ho
    rcases ho with h | h | h | h
    · exact (detectEMACrossover_gated _ _ _ _ _ _ _ h.symm).1
    · exact (detectStochasticSignal_gated _ _ _ _ _ _ _ h.symm).1
    · exact (detectBollingerSignal_gated _ _ _ _ _ _ _ _ h.symm).1
    · exact absurd (detectVolumeSpikeScalping_type _ _ _ _ _ _ _ h.symm) htype
  · exact absurd hmem (by simp)

/-- A candle with close `c` and volume `v` (the scalping detectors read only
closes, highs/lows and volumes; here all prices are `c`). -/
def mkKlineV (c v : ℚ) : Kline := ⟨0, c, c, c, c, v, 0⟩

/-- Config for the C7 counterexample: high `minConfidence` 70, so the
volume-spike confidence 66 is below the gate. -/
def cfgC7x : ScalpingConfig := ⟨9, 21, 14, 3, 20, 80, 20, 2, 3, 3/2, 70, 60000⟩

/-- Five flat candles whose last volume (16) spikes 1.6× above the trailing
average (10). -/
def kC7x : List Kline :=
  [mkKlineV 100 10, mkKlineV 100 10, mkKlineV 100 10, mkKlineV 100 10,
   mkKlineV 100 16]

/-- The alert emitted for `kC7x`: volume spike with confidence
`60 + (1.6 − 1)·10 = 66`. -/
def alertC7x : ScalpingAlert := ⟨.volume_spike, "BTCUSDT", "1m", 0, 100, .buy, 66⟩

/-- Config for the C7 witness: fast/slow EMA periods 2/3, `minConfidence`
50. -/
def cfgC7w : ScalpingConfig := ⟨2, 3, 14, 3, 20, 80, 20, 2, 3, 3/2, 50, 60000⟩

/-- Four candles producing a bullish fast/slow EMA cross on the last one. -/
def kC7w : List Kline :=
  [mkKlineV 10 10, mkKlineV 9 10, mkKlineV 8 10, mkKlineV 20 10]

/-- The alert emitted for `kC7w`: EMA crossover at the capped confidence 90. -/
def alertC7w : ScalpingAlert := ⟨.ema_crossover, "BTCUSDT", "1m", 0, 20, .buy, 90⟩

set_option maxRecDepth 40000 in
set_option maxHeartbeats 2000000 in
theorem processMarketData_c7x_eval :
    ScalpingService.processMarketData id cfgC7x none "BTCUSDT" "1m" kC7x 100 0
      = ([alertC7x], some 0) := by
  simp +decide [ScalpingService.processMarketData, ScalpingService.shouldSendAlert,
    ScalpingService.detectEMACrossover, ScalpingService.detectStochasticSignal,
    ScalpingService.detectBollingerSignal, ScalpingService.detectVolumeSpike,
    ScalpingService.calculateEMA, ScalpingService.calculateAverageVolume,
    ScalpingService.emitIfConfident, cfgC7x, kC7x, mkKlineV, alertC7x]
  norm_num [List.filterMap_cons, List.filterMap_nil]

set_option maxRecDepth 40000 in
set_option maxHeartbeats 2000000 in
theorem processMarketData_c7w_eval :
    ScalpingService.processMarketData id cfgC7w none "BTCUSDT" "1m" kC7w 20 0
      = ([alertC7w], some 0) := by
  simp +decide [ScalpingService.processMarketData, ScalpingService.shouldSendAlert,
    ScalpingService.detectEMACrossover, ScalpingService.detectStochasticSignal,
    ScalpingService.detectBollingerSignal, ScalpingService.detectVolumeSpike,
    ScalpingService.calculateEMA, ScalpingService.calculateAverageVolume,
    ScalpingService.emitIfConfident, cfgC7w, kC7w, mkKlineV, alertC7w]
  norm_num [List.filterMap_cons, List.filterMap_nil]
  exact fun h => Option.noConfusion h

/-- C7 counterexample: with `minConfidence = 70`, `processMarketData` still
returns a volume-spike alert of confidence 66 < 70 — the volume-spike
sub-signal is not discarded when its confidence is below `minConfidence`. -/
theorem processMarketData_volume_spike_ungated_counterexample :
    alertC7x ∈ (ScalpingService.processMarketData id cfgC7x none "BTCUSDT" "1m"
        kC7x 100 0).1 ∧
      alertC7x.type = .volume_spike ∧
      alertC7x.confidence < cfgC7x.minConfidence := by
  refine ⟨?_, rfl, by norm_num [alertC7x, cfgC7x]⟩
  rw [processMarketData_c7x_eval]
  simp

/-- C7 witness: the amended theorem applied to a concrete EMA-crossover alert
(confidence 90 ≥ minConfidence 50), with both hypotheses discharged by
evaluation. -/
theorem processMarketData_confidence_gate_witness :
    alertC7w ∈ (ScalpingService.processMarketData id cfgC7w none "BTCUSDT" "1m"
        kC7w 20 0).1 ∧
      alertC7w.type ≠ .volume_spike ∧
      alertC7w.confidence ≥ cfgC7w.minConfidence := by
  have hmem : alertC7w ∈ (ScalpingService.processMarketData id cfgC7w none
      "BTCUSDT" "1m" kC7w 20 0).1 := by
    rw [processMarketData_c7w_eval]
    simp
  have htype : alertC7w.type ≠ ScalpingAlertType.volume_spike := by
    intro h
    exact ScalpingAlertType.noConfusion h
  exact ⟨hmem, htype, processMarketData_confidence_gate id cfgC7w none "BTCUSDT"
    "1m" kC7w 20 0 alertC7w hmem htype⟩

/-! ## C9: detector isolation within one tick -/

/-- Empty per-service state (no previous signal in any of the five
services). -/
def statesEmpty : BotStates := ⟨none, none, none, none, none⟩

/-- The volume-spike thresholds configured in index.ts
(1.5 / 2 / 3 / 5). -/
def thrW : SpikeThresholds := ⟨3/2, 2, 3, 5⟩

/-- Market data with only 10 candles: too few for the RSI calculator, which
needs `period + 1 = 15`. -/
def md10 : MarketData := ⟨"BTCUSDT", 100, 0, List.replicate 10 (mkKline 100)⟩

/-- Market data with exactly 15 flat candles: enough for the RSI
calculator. -/
def md15 : MarketData := ⟨"BTCUSDT", 100, 0, flatKline⟩

/-- C9 (amended): inside one tick the five generator calls in the
`Promise.all` array literal are evaluated in source order, and
`generateTradingSignal` is synchronous, so the RSI calculator's
insufficient-data throw (fewer than 15 candles) aborts the whole tick before
any sibling generator runs — the siblings do NOT produce their signals.  The
only isolation the code provides is vacuous: with at least 15 candles no
generator can fail, and the tick always succeeds. -/
theorem executeBotTickSignals_rsi_failure_isolation
    (states : BotStates) (config : DivergenceConfig) (volumePeriod : ℕ)
    (thresholds : SpikeThresholds) (lookbackPeriod : ℕ) (md : MarketData)
    (now : ℤ) :
    (md.klineData.length < 15 →
      executeBotTickSignals states config volumePeriod thresholds lookbackPeriod
        md now = .error "Insufficient data for RSI calculation") ∧
    (15 ≤ md.klineData.length →
      ∃ out, executeBotTickSignals states config volumePeriod thresholds
        lookbackPeriod md now = .ok out) := by
  constructor
  · intro h
    unfold executeBotTickSignals SignalService.generateTradingSignal calculateRSI
    rw [if_pos (by omega)]
    rfl
  · intro h
    unfold executeBotTickSignals SignalService.generateTradingSignal calculateRSI
    rw [if_neg (by omega)]
    exact ⟨_, rfl⟩

/-- C9 counterexample: on 10 candles the whole tick degrades to the RSI
error — no `TickSignals` are produced at all — even though the sibling MACD
generator, run on the same market data in isolation, happily returns its
(null-signal) value.  A failure in one detector therefore does prevent the
sibling detectors of the same tick from producing their signals. -/
theorem executeBotTickSignals_abort_counterexample :
    executeBotTickSignals statesEmpty cfgW 3 thrW 3 md10 0
      = .error "Insufficient data for RSI calculation" ∧
    MACDSignalService.generateMACDSignal MACDSignalService.signalCooldown none
      md10 cfgW.pivotLength cfgW.tpPercent cfgW.slPercent 0
      = ((none, none), none) := by
  constructor
  · unfold executeBotTickSignals SignalService.generateTradingSignal calculateRSI
    rw [if_pos (by simp [md10])]
    rfl
  · simp [MACDSignalService.generateMACDSignal, getCurrentMACD,
      MACDSignalService.checkForMACDDivergenceSignal,
      MACDSignalService.macdDetectAndFilter, detectMACDDivergence, md10]

/-- C9 witness: the amended theorem applied to the concrete 10-candle and
15-candle inputs, discharging both length hypotheses by evaluation. -/
theorem executeBotTickSignals_rsi_failure_isolation_witness :
    (md10.klineData.length < 15 ∧
      executeBotTickSignals statesEmpty cfgW 3 thrW 3 md10 0
        = .error "Insufficient data for RSI calculation") ∧
    (15 ≤ md15.klineData.length ∧
      ∃ out, executeBotTickSignals statesEmpty cfgW 3 thrW 3 md15 0 = .ok out) := by
  have h10 : md10.klineData.length < 15 := by simp [md10]
  have h15 : 15 ≤ md15.klineData.length := by simp [md15, flatKline]
  exact ⟨⟨h10, (executeBotTickSignals_rsi_failure_isolation statesEmpty cfgW 3
      thrW 3 md10 0).1 h10⟩,
    h15, (executeBotTickSignals_rsi_failure_isolation statesEmpty cfgW 3
      thrW 3 md15 0).2 h15⟩

end AutoSignal
